import Mathlib

/-!
Verification development for the authentication and account-recovery subsystem
of the cotizate CRM backend.

The embedding mirrors the TypeScript sources: the relational store is a record
of tables (lists kept newest-first, so a Prisma query ordered by
createdAt descending with findFirst corresponds to List.find?), timestamps
are natural numbers of milliseconds, and each repository/service function is
translated to a pure state-passing function.  Request-metadata fields that no
branch of the modelled code reads or compares (ipAddress, userAgent,
requestId, tokenLastFour, codeLength, channel, slug disambiguation, the
Profile and Role tables) are elided.  Random generation (OTP codes, session
tokens) is modelled by passing the generated value as an explicit argument.
Cryptographic digests are modelled as injective tagging functions, which
preserves the equality tests the code performs on them.
-/

namespace Cotizate

/-! Constants from registration.constants.ts. -/

def OTP_LENGTH : Nat := 6
def OTP_EXPIRY_MINUTES : Nat := 15
def SESSION_EXPIRY_HOURS : Nat := 24
def OTP_MAX_ATTEMPTS : Nat := 5
def OTP_LOCK_DURATION_MINUTES : Nat := 15
def MAX_RESENDS : Nat := 5
def RESEND_COOLDOWN_SECONDS : Nat := 60
def MAX_LOGIN_ATTEMPTS : Nat := 5
def SESSION_EXPIRY_DAYS : Nat := 30
def SESSION_ACTIVITY_UPDATE_THRESHOLD_MINUTES : Nat := 5

/-- One second in milliseconds (timestamps are Date.getTime() values). -/
def secondMs : Nat := 1000

/-- One minute in milliseconds. -/
def minuteMs : Nat := 60 * secondMs

/-- One hour in milliseconds. -/
def hourMs : Nat := 60 * minuteMs

/-- One day in milliseconds. -/
def dayMs : Nat := 24 * hourMs

/-- Number.MAX_SAFE_INTEGER, used by forgotPassword when lastSentAt is null. -/
def MAX_SAFE_INTEGER : Int := 9007199254740991

/-! Credential and token primitives (otp.util.ts, password.util.ts,
session.util.ts).  Digests are modelled as injective tags; the code only ever
compares digests for equality. -/

/-- Whitespace recognizer for the trim model (ASCII whitespace). -/
def isWsChar (c : Char) : Bool := c == ' ' || c == '\t' || c == '\n' || c == '\r'

/-- Model of email.toLowerCase().trim() used by the repositories, written
with structural recursion over the character list (same result as the
builtin toLower/trim on the ASCII emails in scope). -/
def normalizeEmail (e : String) : String :=
  ⟨(((e.data.map Char.toLower).dropWhile isWsChar).reverse.dropWhile
      isWsChar).reverse⟩

/-- Model of hashOTP: SHA-256 hex digest of the code (otp.util.ts). -/
def hashOTP (otp : String) : String := "sha256." ++ otp

/-- verifyOTP from otp.util.ts: digest comparison. -/
def verifyOTP (otp hash : String) : Bool := hashOTP otp == hash

/-- Model of hashPassword (bcrypt, password.util.ts). -/
def hashPassword (p : String) : String := "bcrypt." ++ p

/-- verifyPassword from password.util.ts: bcrypt compare. -/
def verifyPassword (p hash : String) : Bool := hashPassword p == hash

/-- Model of hashSessionToken: SHA-256 hex digest of the bearer token. -/
def hashSessionToken (t : String) : String := "sha256t." ++ t

/-! Data model (§3 of the spec, Prisma schema).  Column defaults of OtpSession
(active=true, attemptCount=0, maxAttempts=5, resendCount=0) are modelled from
the spec since the schema file is not part of the sources. -/

inductive OtpPurpose
  | emailVerification
  | passwordReset
deriving DecidableEq, Repr

inductive AttemptStatus
  | success
  | failure
  | expired
  | locked
deriving DecidableEq, Repr

structure UserRow where
  id : Nat
  email : String
  password : String
  verified : Bool
  verifiedAt : Option Nat
  isLocked : Bool
  loginAttempts : Nat
  lastLoginAt : Option Nat
  organizationId : Nat
deriving DecidableEq, Repr

structure OrganizationRow where
  id : Nat
  name : String
  deletedAt : Option Nat
deriving DecidableEq, Repr

structure SessionRow where
  id : Nat
  userId : Nat
  organizationId : Nat
  tokenHash : String
  lastActivity : Nat
  expiresAt : Nat
  revokedAt : Option Nat
  revokedReason : Option String
deriving DecidableEq, Repr

structure OtpSessionRow where
  id : Nat
  userId : Option Nat
  organizationId : Option Nat
  email : String
  purpose : OtpPurpose
  active : Bool
  expiresAt : Nat
  attemptCount : Nat
  maxAttempts : Nat
  lockUntil : Option Nat
  resendCount : Nat
  lastSentAt : Option Nat
  lastAttemptAt : Option Nat
deriving DecidableEq, Repr

structure OtpTokenRow where
  id : Nat
  sessionId : Nat
  codeHash : String
  expiresAt : Nat
  consumedAt : Option Nat
deriving DecidableEq, Repr

structure OtpAttemptRow where
  sessionId : Nat
  tokenId : Option Nat
  userId : Option Nat
  email : String
  purpose : OtpPurpose
  status : AttemptStatus
  reason : Option String
deriving DecidableEq, Repr

structure AuditLogRow where
  userId : Option Nat
  organizationId : Option Nat
  action : String
  resource : String
deriving DecidableEq, Repr

/-- The relational store.  Every table list is kept newest-first: creation
conses at the head, so List.find? corresponds to a Prisma findFirst ordered by
createdAt descending.  nextId allocates fresh row ids. -/
structure DB where
  users : List UserRow
  organizations : List OrganizationRow
  sessions : List SessionRow
  otpSessions : List OtpSessionRow
  otpTokens : List OtpTokenRow
  otpAttempts : List OtpAttemptRow
  auditLogs : List AuditLogRow
  nextId : Nat
deriving DecidableEq, Repr

/-- The empty store. -/
def DB.empty : DB :=
  { users := [], organizations := [], sessions := [], otpSessions := [],
    otpTokens := [], otpAttempts := [], auditLogs := [], nextId := 0 }

/-! User repository (user.repository.ts). -/

/-- getUserByEmail: findUnique on the normalized email (selects id and
verified in the source; the whole row carries both). -/
def getUserByEmail (db : DB) (email : String) : Option UserRow :=
  db.users.find? (fun u => u.email == normalizeEmail email)

/-- findUserForLogin: user by normalized email together with its organization
(the include of profile/roles is elided; organization is a required
relation, so the join is total on well-formed stores). -/
def findUserForLogin (db : DB) (email : String) :
    Option (UserRow × OrganizationRow) :=
  match db.users.find? (fun u => u.email == normalizeEmail email) with
  | none => none
  | some u =>
    match db.organizations.find? (fun o => o.id == u.organizationId) with
    | none => none
    | some o => some (u, o)

/-- findUserById with the same join as findUserForLogin. -/
def findUserById (db : DB) (userId : Nat) : Option UserRow :=
  db.users.find? (fun u => u.id == userId)

/-- createUser: email normalized, verified=false, remaining columns are the
schema defaults. -/
def createUser (db : DB) (email passwordHash : String) (organizationId : Nat) :
    DB × UserRow :=
  let u : UserRow :=
    { id := db.nextId, email := normalizeEmail email, password := passwordHash,
      verified := false, verifiedAt := none, isLocked := false,
      loginAttempts := 0, lastLoginAt := none, organizationId := organizationId }
  ({ db with users := u :: db.users, nextId := db.nextId + 1 }, u)

/-- markUserVerified: set verified=true and verifiedAt=now. -/
def markUserVerified (db : DB) (now : Nat) (userId : Nat) : DB :=
  { db with users := db.users.map (fun u =>
      if u.id == userId then { u with verified := true, verifiedAt := some now }
      else u) }

/-- incrementUserLoginAttempts: write loginAttempts = currentAttempts + 1 and
isLocked = (newAttempts >= MAX_LOGIN_ATTEMPTS). -/
def incrementUserLoginAttempts (db : DB) (userId currentAttempts : Nat) : DB :=
  { db with users := db.users.map (fun u =>
      if u.id == userId then
        { u with loginAttempts := currentAttempts + 1,
                 isLocked := decide (MAX_LOGIN_ATTEMPTS ≤ currentAttempts + 1) }
      else u) }

/-- resetUserLoginAttempts: loginAttempts = 0, nothing else touched. -/
def resetUserLoginAttempts (db : DB) (userId : Nat) : DB :=
  { db with users := db.users.map (fun u =>
      if u.id == userId then { u with loginAttempts := 0 } else u) }

/-- updateUserLastLogin: lastLoginAt = now. -/
def updateUserLastLogin (db : DB) (now : Nat) (userId : Nat) : DB :=
  { db with users := db.users.map (fun u =>
      if u.id == userId then { u with lastLoginAt := some now } else u) }

/-- updateUserPassword (reset completion): new hash, loginAttempts = 0,
isLocked = false, verified = true, verifiedAt = now when the user was
unverified before the reset. -/
def updateUserPassword (db : DB) (now : Nat) (userId : Nat)
    (passwordHash : String) (wasUnverified : Bool) : DB :=
  { db with users := db.users.map (fun u =>
      if u.id == userId then
        { u with password := passwordHash, loginAttempts := 0,
                 isLocked := false, verified := true,
                 verifiedAt := if wasUnverified then some now else u.verifiedAt }
      else u) }

/-- updateUserPasswordOnly (authenticated change): just the hash. -/
def updateUserPasswordOnly (db : DB) (userId : Nat) (passwordHash : String) :
    DB :=
  { db with users := db.users.map (fun u =>
      if u.id == userId then { u with password := passwordHash } else u) }

/-! Organization repository (organization.repository.ts); slug
disambiguation elided. -/

/-- createOrganization. -/
def createOrganization (db : DB) (name : String) : DB × OrganizationRow :=
  let o : OrganizationRow := { id := db.nextId, name := name, deletedAt := none }
  ({ db with organizations := o :: db.organizations, nextId := db.nextId + 1 }, o)

/-! Session repository (session.repository.ts). -/

/-- createSession: lastActivity = now, expiresAt = now + 30 days. -/
def createSession (db : DB) (now : Nat) (userId organizationId : Nat)
    (tokenHash : String) : DB × SessionRow :=
  let s : SessionRow :=
    { id := db.nextId, userId := userId, organizationId := organizationId,
      tokenHash := tokenHash, lastActivity := now,
      expiresAt := now + SESSION_EXPIRY_DAYS * dayMs,
      revokedAt := none, revokedReason := none }
  ({ db with sessions := s :: db.sessions, nextId := db.nextId + 1 }, s)

/-- findSessionForAuth: unique lookup by token hash with the minimal joined
user and organization fields (the row carries them all). -/
def findSessionForAuth (db : DB) (tokenHash : String) :
    Option (SessionRow × Option UserRow × Option OrganizationRow) :=
  match db.sessions.find? (fun s => s.tokenHash == tokenHash) with
  | none => none
  | some s =>
    some (s, db.users.find? (fun u => u.id == s.userId),
          db.organizations.find? (fun o => o.id == s.organizationId))

/-- revokeUserSessions: updateMany over the active (revokedAt null) sessions
of the user; returns the affected count. -/
def revokeUserSessions (db : DB) (now : Nat) (userId : Nat) (reason : String) :
    DB × Nat :=
  let hit : SessionRow → Bool := fun s =>
    s.userId == userId && s.revokedAt == none
  ({ db with sessions := db.sessions.map (fun s =>
      if hit s then { s with revokedAt := some now, revokedReason := some reason }
      else s) },
   (db.sessions.filter hit).length)

/-- revokeUserSessionsExcept: as revokeUserSessions but the current session id
is excluded from the where clause. -/
def revokeUserSessionsExcept (db : DB) (now : Nat)
    (userId currentSessionId : Nat) (reason : String) : DB × Nat :=
  let hit : SessionRow → Bool := fun s =>
    s.userId == userId && s.revokedAt == none && !(s.id == currentSessionId)
  ({ db with sessions := db.sessions.map (fun s =>
      if hit s then { s with revokedAt := some now, revokedReason := some reason }
      else s) },
   (db.sessions.filter hit).length)

/-! OTP repository (otp.repository.ts). -/

/-- createOtpSession: purpose EMAIL_VERIFICATION, expiresAt = now + 24h,
lastSentAt = now; active/attemptCount/maxAttempts/resendCount are the schema
defaults modelled from the spec. -/
def createOtpSession (db : DB) (now : Nat) (userId organizationId : Nat)
    (email : String) : DB × OtpSessionRow :=
  let s : OtpSessionRow :=
    { id := db.nextId, userId := some userId,
      organizationId := some organizationId, email := email,
      purpose := .emailVerification, active := true,
      expiresAt := now + SESSION_EXPIRY_HOURS * hourMs, attemptCount := 0,
      maxAttempts := OTP_MAX_ATTEMPTS, lockUntil := none, resendCount := 0,
      lastSentAt := some now, lastAttemptAt := none }
  ({ db with otpSessions := s :: db.otpSessions, nextId := db.nextId + 1 }, s)

/-- createOtpToken: codeHash = hashOTP(code), expiresAt = now + 15 min. -/
def createOtpToken (db : DB) (now : Nat) (sessionId : Nat) (otpCode : String) :
    DB × OtpTokenRow :=
  let t : OtpTokenRow :=
    { id := db.nextId, sessionId := sessionId, codeHash := hashOTP otpCode,
      expiresAt := now + OTP_EXPIRY_MINUTES * minuteMs, consumedAt := none }
  ({ db with otpTokens := t :: db.otpTokens, nextId := db.nextId + 1 }, t)

/-- findActiveOtpSession: most recent active EMAIL_VERIFICATION session for
the normalized email. -/
def findActiveOtpSession (db : DB) (email : String) : Option OtpSessionRow :=
  db.otpSessions.find? (fun s =>
    s.email == normalizeEmail email && s.purpose == .emailVerification && s.active)

/-- findUnconsumedOtpTokens: unconsumed tokens of the session, newest
first. -/
def findUnconsumedOtpTokens (db : DB) (sessionId : Nat) : List OtpTokenRow :=
  db.otpTokens.filter (fun t => t.sessionId == sessionId && t.consumedAt == none)

/-- incrementOtpSessionAttempts: reread the session, then write
attemptCount = old + 1, lastAttemptAt = now, and lockUntil =
now + OTP_LOCK_DURATION_MINUTES when the new count reaches maxAttempts and
null otherwise.  none models the session-not-found throw. -/
def incrementOtpSessionAttempts (db : DB) (now : Nat) (sessionId : Nat) :
    Option (DB × OtpSessionRow) :=
  match db.otpSessions.find? (fun s => s.id == sessionId) with
  | none => none
  | some cur =>
    let newAttemptCount := cur.attemptCount + 1
    let lockUntil : Option Nat :=
      if cur.maxAttempts ≤ newAttemptCount then
        some (now + OTP_LOCK_DURATION_MINUTES * minuteMs)
      else none
    let updated : OtpSessionRow :=
      { cur with attemptCount := newAttemptCount, lastAttemptAt := some now,
                 lockUntil := lockUntil }
    some ({ db with otpSessions := db.otpSessions.map (fun s =>
              if s.id == sessionId then
                { s with attemptCount := newAttemptCount,
                         lastAttemptAt := some now, lockUntil := lockUntil }
              else s) },
          updated)

/-- markOtpTokenConsumed: consumedAt = now. -/
def markOtpTokenConsumed (db : DB) (now : Nat) (tokenId : Nat) : DB :=
  { db with otpTokens := db.otpTokens.map (fun t =>
      if t.id == tokenId then { t with consumedAt := some now } else t) }

/-- markOtpSessionInactive: active = false. -/
def markOtpSessionInactive (db : DB) (sessionId : Nat) : DB :=
  { db with otpSessions := db.otpSessions.map (fun s =>
      if s.id == sessionId then { s with active := false } else s) }

/-- createOtpAttempt: audit row with purpose hardwired to
EMAIL_VERIFICATION in the source. -/
def createOtpAttempt (db : DB) (sessionId : Nat) (tokenId userId : Option Nat)
    (email : String) (status : AttemptStatus) (reason : Option String) : DB :=
  let a : OtpAttemptRow :=
    { sessionId := sessionId, tokenId := tokenId, userId := userId,
      email := normalizeEmail email, purpose := .emailVerification,
      status := status, reason := reason }
  { db with otpAttempts := a :: db.otpAttempts }

/-- findAnyOtpSession: most recent EMAIL_VERIFICATION session for the
normalized email, active or not. -/
def findAnyOtpSession (db : DB) (email : String) : Option OtpSessionRow :=
  db.otpSessions.find? (fun s =>
    s.email == normalizeEmail email && s.purpose == .emailVerification)

/-- findSessionsWithActiveLocks: any EMAIL_VERIFICATION session for the email
with lockUntil strictly in the future, the most restrictive (largest
lockUntil) first. -/
def findSessionsWithActiveLocks (db : DB) (now : Nat) (email : String) :
    Option OtpSessionRow :=
  (db.otpSessions.filter (fun s =>
      s.email == normalizeEmail email && s.purpose == .emailVerification &&
      (match s.lockUntil with | some l => now < l | none => false))).argmax
    (fun s => s.lockUntil.getD 0)

/-- invalidateSessionTokens: mark every unconsumed token of the session
consumed at now. -/
def invalidateSessionTokens (db : DB) (now : Nat) (sessionId : Nat) : DB :=
  { db with otpTokens := db.otpTokens.map (fun t =>
      if t.sessionId == sessionId && t.consumedAt == none then
        { t with consumedAt := some now }
      else t) }

/-- updateSessionResendMetadata: write resendCount and lastSentAt. -/
def updateSessionResendMetadata (db : DB) (sessionId resendCount : Nat)
    (lastSentAt : Nat) : DB :=
  { db with otpSessions := db.otpSessions.map (fun s =>
      if s.id == sessionId then
        { s with resendCount := resendCount, lastSentAt := some lastSentAt }
      else s) }

/-! Password-reset variants of the OTP repository.  Their definitions are not
part of the sources (only their callers are); each is the PASSWORD_RESET
analogue of the EMAIL_VERIFICATION function above, modelled from the spec. -/

/-- Modelled from the spec: createPasswordResetOtpSession, the
PASSWORD_RESET analogue of createOtpSession (§4.6 mirrors §4.4's
rotate-or-create structure on purpose = PASSWORD_RESET sessions). -/
def createPasswordResetOtpSession (db : DB) (now : Nat)
    (userId organizationId : Nat) (email : String) : DB × OtpSessionRow :=
  let s : OtpSessionRow :=
    { id := db.nextId, userId := some userId,
      organizationId := some organizationId, email := email,
      purpose := .passwordReset, active := true,
      expiresAt := now + SESSION_EXPIRY_HOURS * hourMs, attemptCount := 0,
      maxAttempts := OTP_MAX_ATTEMPTS, lockUntil := none, resendCount := 0,
      lastSentAt := some now, lastAttemptAt := none }
  ({ db with otpSessions := s :: db.otpSessions, nextId := db.nextId + 1 }, s)

/-- Modelled from the spec: findActivePasswordResetSession, the
PASSWORD_RESET analogue of findActiveOtpSession. -/
def findActivePasswordResetSession (db : DB) (email : String) :
    Option OtpSessionRow :=
  db.otpSessions.find? (fun s =>
    s.email == normalizeEmail email && s.purpose == .passwordReset && s.active)

/-- Modelled from the spec: findPasswordResetSessionsWithActiveLocks, the
PASSWORD_RESET analogue of findSessionsWithActiveLocks (any session for the
email, regardless of active flag, with lockUntil in the future). -/
def findPasswordResetSessionsWithActiveLocks (db : DB) (now : Nat)
    (email : String) : Option OtpSessionRow :=
  (db.otpSessions.filter (fun s =>
      s.email == normalizeEmail email && s.purpose == .passwordReset &&
      (match s.lockUntil with | some l => now < l | none => false))).argmax
    (fun s => s.lockUntil.getD 0)

/-- Modelled from the spec: createPasswordResetOtpAttempt, the
PASSWORD_RESET analogue of createOtpAttempt. -/
def createPasswordResetOtpAttempt (db : DB) (sessionId : Nat)
    (tokenId userId : Option Nat) (email : String) (status : AttemptStatus)
    (reason : Option String) : DB :=
  let a : OtpAttemptRow :=
    { sessionId := sessionId, tokenId := tokenId, userId := userId,
      email := normalizeEmail email, purpose := .passwordReset,
      status := status, reason := reason }
  { db with otpAttempts := a :: db.otpAttempts }

/-- Append an audit log row (prisma.auditLog.create with the metadata
fields elided). -/
def addAuditLog (db : DB) (userId organizationId : Option Nat)
    (action resource : String) : DB :=
  { db with auditLogs :=
      { userId := userId, organizationId := organizationId, action := action,
        resource := resource } :: db.auditLogs }

/-- The lockUntil-in-the-future test used by the services
(lockUntil && lockUntil > now). -/
def lockIsActive (lockUntil : Option Nat) (now : Nat) : Bool :=
  match lockUntil with
  | some l => now < l
  | none => false

/-! Flow-level errors (AppError subclasses from the *.errors.ts files),
with their HTTP status and machine-readable code. -/

inductive AppErr
  | conflictEmail
  | emailNotVerifiedReg
  | invalidCredentials
  | accountNotVerified
  | accountLockedLogin
  | organizationInactiveLogin
  | noActiveVerificationSession
  | verificationSessionExpired
  | verificationSessionLocked (lockUntil : Nat)
  | noValidVerificationCode
  | verificationCodeExpired
  | invalidVerificationCode (attemptsRemaining : Nat)
  | noVerificationSession
  | tooManyResends
  | resendRateLimited (waitSeconds : Nat)
  | noActivePasswordResetSession
  | passwordResetSessionExpired
  | passwordResetSessionLocked (lockUntil : Nat)
  | noValidPasswordResetCode
  | passwordResetCodeExpired
  | invalidPasswordResetCode (attemptsRemaining : Nat)
  | invalidCurrentPassword
  | userNotFound
  | internalError (msg : String)
deriving DecidableEq, Repr

/-- HTTP status attached by the error factory functions. -/
def AppErr.statusCode : AppErr → Nat
  | .conflictEmail => 409
  | .emailNotVerifiedReg => 403
  | .invalidCredentials => 401
  | .accountNotVerified => 403
  | .accountLockedLogin => 401
  | .organizationInactiveLogin => 403
  | .verificationSessionLocked _ => 429
  | .resendRateLimited _ => 429
  | .passwordResetSessionLocked _ => 429
  | .userNotFound => 404
  | .internalError _ => 500
  | _ => 400

/-- Machine-readable code attached by the error factory functions. -/
def AppErr.code : AppErr → Option String
  | .conflictEmail => none
  | .emailNotVerifiedReg => some "EMAIL_NOT_VERIFIED"
  | .invalidCredentials => some "INVALID_CREDENTIALS"
  | .accountNotVerified => some "ACCOUNT_NOT_VERIFIED"
  | .accountLockedLogin => some "ACCOUNT_LOCKED"
  | .organizationInactiveLogin => some "ORGANIZATION_INACTIVE"
  | .noActiveVerificationSession => some "NO_ACTIVE_SESSION"
  | .verificationSessionExpired => some "SESSION_EXPIRED"
  | .verificationSessionLocked _ => some "SESSION_LOCKED"
  | .noValidVerificationCode => some "NO_VALID_CODE"
  | .verificationCodeExpired => some "CODE_EXPIRED"
  | .invalidVerificationCode _ => some "INVALID_CODE"
  | .noVerificationSession => some "NO_VERIFICATION_SESSION"
  | .tooManyResends => some "TOO_MANY_RESENDS"
  | .resendRateLimited _ => some "RESEND_RATE_LIMITED"
  | .noActivePasswordResetSession => some "NO_ACTIVE_RESET_SESSION"
  | .passwordResetSessionExpired => some "RESET_SESSION_EXPIRED"
  | .passwordResetSessionLocked _ => some "RESET_SESSION_LOCKED"
  | .noValidPasswordResetCode => some "NO_VALID_RESET_CODE"
  | .passwordResetCodeExpired => some "RESET_CODE_EXPIRED"
  | .invalidPasswordResetCode _ => some "INVALID_RESET_CODE"
  | .invalidCurrentPassword => some "INVALID_CURRENT_PASSWORD"
  | .userNotFound => none
  | .internalError _ => none

/-- Success-shaped result common to verification, reset and change flows. -/
structure FlowResult where
  success : Bool
  message : String
deriving DecidableEq, Repr

/-! Registration flow (register.service.ts).  Slug disambiguation, the
Profile row and the OWNER role assignment are elided; the generated OTP code
is passed in. -/

structure RegisterResult where
  otpExpiresAt : Nat
deriving DecidableEq, Repr

/-- RegisterService.register. -/
def register (db : DB) (now : Nat) (email password organizationName : String)
    (otpCode : String) : DB × Except AppErr RegisterResult :=
  match getUserByEmail db email with
  | some existingUser =>
    if !existingUser.verified then (db, .error .emailNotVerifiedReg)
    else (db, .error .conflictEmail)
  | none =>
    let passwordHash := hashPassword password
    let (db1, organization) := createOrganization db organizationName
    let (db2, user) := createUser db1 email passwordHash organization.id
    let (db3, otpSession) := createOtpSession db2 now user.id organization.id email
    let (db4, otpToken) := createOtpToken db3 now otpSession.id otpCode
    let db5 := addAuditLog db4 (some user.id) (some organization.id)
      "USER_REGISTERED" "USER"
    (db5, .ok ⟨otpToken.expiresAt⟩)

/-! Email verification flow (emailVerification.service.ts). -/

/-- EmailVerificationService.verifyEmail.  A throw inside the success
transaction (missing session.userId or a failing user update) rolls the
transaction back, so those branches return the unchanged store with an
internal error. -/
def verifyEmail (db : DB) (now : Nat) (email otpCode : String) :
    DB × Except AppErr FlowResult :=
  if (getUserByEmail db email).any (·.verified) then
    (db, .ok ⟨true, "Email already verified"⟩)
  else
    match findActiveOtpSession db email with
    | none => (db, .error .noActiveVerificationSession)
    | some session =>
      if session.expiresAt < now then (db, .error .verificationSessionExpired)
      else if lockIsActive session.lockUntil now then
        (db, .error (.verificationSessionLocked (session.lockUntil.getD 0)))
      else
        match findUnconsumedOtpTokens db session.id with
        | [] => (db, .error .noValidVerificationCode)
        | token :: _ =>
          if token.expiresAt < now then (db, .error .verificationCodeExpired)
          else if token.codeHash == "" then (db, .error .verificationCodeExpired)
          else if !(verifyOTP otpCode token.codeHash) then
            match incrementOtpSessionAttempts db now session.id with
            | none => (db, .error (.internalError "OTP session not found"))
            | some (db1, updatedSession) =>
              let db2 := createOtpAttempt db1 session.id (some token.id)
                session.userId email .failure (some "INVALID_CODE")
              -- Math.max(0, maxAttempts - attemptCount) is Nat truncated
              -- subtraction
              (db2, .error (.invalidVerificationCode
                (updatedSession.maxAttempts - updatedSession.attemptCount)))
          else
            match session.userId with
            | none => (db, .error (.internalError
                "Session missing userId - invalid state"))
            | some uid =>
              match findUserById db uid with
              | none => (db, .error (.internalError "User not found"))
              | some uRow =>
                let db1 := markOtpTokenConsumed db now token.id
                let db2 := markOtpSessionInactive db1 session.id
                let db3 := markUserVerified db2 now uid
                let db4 := createOtpAttempt db3 session.id (some token.id)
                  (some uid) email .success none
                let db5 := addAuditLog db4 (some uid) (some uRow.organizationId)
                  "UPDATE" "USER"
                (db5, .ok ⟨true, "Email verified successfully"⟩)

/-! Resend / token-rotation flow (resend.service.ts). -/

structure ResendResult where
  success : Bool
  message : String
  otpExpiresAt : Option Nat
  newSessionId : Option Nat
deriving DecidableEq, Repr

/-- ResendService.createReplacementSession.  The missing-userId throw
happens inside the transaction, after markOtpSessionInactive; the rollback
makes that equivalent to failing before any write. -/
def createReplacementSession (db : DB) (now : Nat) (oldSession : OtpSessionRow)
    (email otpCode : String) : DB × Except AppErr ResendResult :=
  match oldSession.userId, oldSession.organizationId with
  | some uid, some oid =>
    let db1 := markOtpSessionInactive db oldSession.id
    let (db2, newSession) := createOtpSession db1 now uid oid email
    let (db3, newToken) := createOtpToken db2 now newSession.id otpCode
    let db4 := addAuditLog db3 (some uid) (some oid) "CREATE" "OTP_SESSION"
    (db4, .ok ⟨true, "New verification code sent", some newToken.expiresAt,
      some newSession.id⟩)
  | _, _ => (db, .error (.internalError
      "Old session missing userId or organizationId - invalid state"))

/-- ResendService.rotateTokenInSession. -/
def rotateTokenInSession (db : DB) (now : Nat) (session : OtpSessionRow)
    (email otpCode : String) : DB × Except AppErr ResendResult :=
  let db1 := invalidateSessionTokens db now session.id
  let (db2, newToken) := createOtpToken db1 now session.id otpCode
  let db3 := updateSessionResendMetadata db2 session.id
    (session.resendCount + 1) now
  let db4 := createOtpAttempt db3 session.id (some newToken.id)
    session.userId email .success (some "TOKEN_ROTATION")
  (db4, .ok ⟨true, "New verification code sent", some newToken.expiresAt, none⟩)

/-- ResendService.resendCode: the seven paths, global lock check first. -/
def resendCode (db : DB) (now : Nat) (email otpCode : String) :
    DB × Except AppErr ResendResult :=
  match findSessionsWithActiveLocks db now email with
  | some activeLock =>
    match activeLock.lockUntil with
    | none => (db, .error (.internalError
        "Active lock missing lockUntil - invalid state"))
    | some l => (db, .error (.verificationSessionLocked l))
  | none =>
    if (getUserByEmail db email).any (·.verified) then
      (db, .ok ⟨true, "Email already verified", none, none⟩)
    else
      match findAnyOtpSession db email with
      | none => (db, .error .noVerificationSession)
      | some session =>
        if session.expiresAt < now then
          createReplacementSession db now session email otpCode
        else if lockIsActive session.lockUntil now then
          (db, .error (.verificationSessionLocked (session.lockUntil.getD 0)))
        else if MAX_RESENDS ≤ session.resendCount then
          (db, .error .tooManyResends)
        else
          match session.lastSentAt with
          | some lastSent =>
            let timeSinceLastSend : Int := (now : Int) - (lastSent : Int)
            let cooldownMs : Int := (RESEND_COOLDOWN_SECONDS : Int) * 1000
            if timeSinceLastSend < cooldownMs then
              -- Math.ceil on a positive integral millisecond gap
              (db, .error (.resendRateLimited
                (((cooldownMs - timeSinceLastSend) + 999) / 1000).toNat))
            else rotateTokenInSession db now session email otpCode
          | none => rotateTokenInSession db now session email otpCode

/-! Login flow (login.service.ts).  The generated session token is passed
in; cookie issuance is elided. -/

structure LoginResult where
  success : Bool
  message : String
  userId : Nat
  sessionId : Nat
  sessionExpiresAt : Nat
deriving DecidableEq, Repr

/-- LoginService.login. -/
def login (db : DB) (now : Nat) (email password rawToken : String) :
    DB × Except AppErr LoginResult :=
  match findUserForLogin db email with
  | none => (db, .error .invalidCredentials)
  | some (user, organization) =>
    if !user.verified then (db, .error .accountNotVerified)
    else if user.isLocked then (db, .error .accountLockedLogin)
    else if organization.deletedAt.isSome then
      (db, .error .organizationInactiveLogin)
    else if !(verifyPassword password user.password) then
      let db1 := incrementUserLoginAttempts db user.id user.loginAttempts
      let db2 := addAuditLog db1 (some user.id) (some user.organizationId)
        "LOGIN_FAILED" "USER"
      (db2, .error .invalidCredentials)
    else
      let db1 := resetUserLoginAttempts db user.id
      let tokenHash := hashSessionToken rawToken
      let (db2, session) := createSession db1 now user.id user.organizationId
        tokenHash
      let db3 := updateUserLastLogin db2 now user.id
      let db4 := addAuditLog db3 (some user.id) (some user.organizationId)
        "LOGIN" "USER"
      (db4, .ok ⟨true, "Login successful", user.id, session.id,
        session.expiresAt⟩)

/-! Forgot-password flow (forgotPassword.service.ts and the controller). -/

structure ForgotPasswordResult where
  success : Bool
  message : String
  otpExpiresAt : Option Nat
  newSessionId : Option Nat
deriving DecidableEq, Repr

/-- The single message every forgot-password branch returns. -/
def forgotGenericMessage : String :=
  "If this email exists, password reset instructions have been sent"

/-- The bare generic success (branches that create nothing). -/
def forgotSuccess : ForgotPasswordResult :=
  ⟨true, forgotGenericMessage, none, none⟩

/-- ForgotPasswordService.forgotPassword.  internalFailure models an
unexpected exception anywhere in the body: the catch converts it to the
generic success and the transaction rollback leaves the store unchanged. -/
def forgotPassword (db : DB) (now : Nat) (email otpCode : String)
    (internalFailure : Bool) : DB × ForgotPasswordResult :=
  if internalFailure then (db, forgotSuccess)
  else
    match findUserForLogin db email with
    | none => (db, forgotSuccess)
    | some (existingUser, _) =>
      match findPasswordResetSessionsWithActiveLocks db now email with
      | some _ => (db, forgotSuccess)
      | none =>
        match findActivePasswordResetSession db email with
        | some existingSession =>
          let timeSinceLastSent : Int :=
            match existingSession.lastSentAt with
            | some l => (now : Int) - (l : Int)
            | none => MAX_SAFE_INTEGER
          if timeSinceLastSent < (RESEND_COOLDOWN_SECONDS : Int) * 1000 then
            (db, forgotSuccess)
          else if MAX_RESENDS ≤ existingSession.resendCount then
            (db, forgotSuccess)
          else
            let db1 := invalidateSessionTokens db now existingSession.id
            let (db2, otpToken) := createOtpToken db1 now existingSession.id
              otpCode
            let db3 := updateSessionResendMetadata db2 existingSession.id
              (existingSession.resendCount + 1) now
            (db3, ⟨true, forgotGenericMessage, some otpToken.expiresAt,
              some existingSession.id⟩)
        | none =>
          let (db1, otpSession) := createPasswordResetOtpSession db now
            existingUser.id existingUser.organizationId email
          let (db2, otpToken) := createOtpToken db1 now otpSession.id otpCode
          (db2, ⟨true, forgotGenericMessage, some otpToken.expiresAt,
            some otpSession.id⟩)

/-- The HTTP response body written by PasswordController.forgotPassword:
otpExpiresAt is spread into the JSON only when the service returned one. -/
structure ForgotPasswordHttpBody where
  success : Bool
  message : String
  otpExpiresAt : Option String
deriving DecidableEq, Repr

/-- Model of Date.toISOString: an injective rendering of the timestamp. -/
def isoString (t : Nat) : String := "iso." ++ toString t

/-- PasswordController.forgotPassword: status 200 with the serialized
service result. -/
def forgotPasswordHttp (db : DB) (now : Nat) (email otpCode : String)
    (internalFailure : Bool) : Nat × ForgotPasswordHttpBody :=
  let result := (forgotPassword db now email otpCode internalFailure).2
  (200, ⟨result.success, result.message, result.otpExpiresAt.map isoString⟩)

/-! Reset-password flow (resetPassword.service.ts). -/

/-- ResetPasswordService.resetPassword. -/
def resetPassword (db : DB) (now : Nat) (email otpCode newPassword : String) :
    DB × Except AppErr FlowResult :=
  match findUserForLogin db email with
  | none => (db, .error .noActivePasswordResetSession)
  | some (existingUser, _) =>
    let wasUnverified := !existingUser.verified
    match findActivePasswordResetSession db email with
    | none => (db, .error .noActivePasswordResetSession)
    | some session =>
      if session.expiresAt < now then (db, .error .passwordResetSessionExpired)
      else if lockIsActive session.lockUntil now then
        (db, .error (.passwordResetSessionLocked (session.lockUntil.getD 0)))
      else
        match findUnconsumedOtpTokens db session.id with
        | [] => (db, .error .noValidPasswordResetCode)
        | token :: _ =>
          if token.expiresAt < now then (db, .error .passwordResetCodeExpired)
          else if token.codeHash == "" then
            (db, .error .passwordResetCodeExpired)
          else if !(verifyOTP otpCode token.codeHash) then
            match incrementOtpSessionAttempts db now session.id with
            | none => (db, .error (.internalError "OTP session not found"))
            | some (db1, updatedSession) =>
              let db2 := createPasswordResetOtpAttempt db1 session.id
                (some token.id) session.userId email .failure
                (some "INVALID_CODE")
              (db2, .error (.invalidPasswordResetCode
                (updatedSession.maxAttempts - updatedSession.attemptCount)))
          else
            let db1 := markOtpTokenConsumed db now token.id
            let db2 := markOtpSessionInactive db1 session.id
            let passwordHash := hashPassword newPassword
            let db3 := updateUserPassword db2 now existingUser.id passwordHash
              wasUnverified
            let (db4, _revokedCount) := revokeUserSessions db3 now
              existingUser.id "password_changed"
            let db5 := createPasswordResetOtpAttempt db4 session.id
              (some token.id) (some existingUser.id) email .success none
            let db6 := addAuditLog db5 (some existingUser.id)
              (some existingUser.organizationId) "UPDATE" "USER"
            (db6, .ok ⟨true, "Password reset successfully"⟩)

/-! Change-password flow (changePassword.service.ts). -/

/-- ChangePasswordService.changePassword. -/
def changePassword (db : DB) (now : Nat) (userId sessionId : Nat)
    (currentPassword newPassword : String) : DB × Except AppErr FlowResult :=
  match findUserById db userId with
  | none => (db, .error .userNotFound)
  | some user =>
    if !(verifyPassword currentPassword user.password) then
      (db, .error .invalidCurrentPassword)
    else
      let passwordHash := hashPassword newPassword
      let db1 := updateUserPasswordOnly db userId passwordHash
      let (db2, _revokedCount) := revokeUserSessionsExcept db1 now userId
        sessionId "password_changed"
      let db3 := addAuditLog db2 (some userId) (some user.organizationId)
        "UPDATE" "USER"
      (db3, .ok ⟨true, "Password changed successfully"⟩)

/-! Authentication middleware (authenticate in auth.middleware.ts).  The
fire-and-forget throttled lastActivity update is elided: it is outside the
request-critical path and no validated outcome depends on it. -/

inductive AuthCheckError
  | authenticationRequired
  | invalidSession
  | sessionRevoked
  | sessionExpired
  | dataIntegrity
  | emailNotVerifiedAuth
  | accountLockedAuth
  | organizationInactiveAuth
deriving DecidableEq, Repr

/-- HTTP status of the middleware errors (auth.errors.ts). -/
def AuthCheckError.statusCode : AuthCheckError → Nat
  | .authenticationRequired => 401
  | .invalidSession => 401
  | .sessionRevoked => 401
  | .sessionExpired => 401
  | .dataIntegrity => 500
  | .emailNotVerifiedAuth => 403
  | .accountLockedAuth => 403
  | .organizationInactiveAuth => 403

/-- Minimal auth context set on the request. -/
structure AuthContext where
  userId : Nat
  sessionId : Nat
  organizationId : Nat
deriving DecidableEq, Repr

deriving instance DecidableEq for Except

/-- Outcome of the middleware: the result plus whether the auth cookie was
cleared (inline clearAuthCookie calls, or the catch handler clearing on any
statusCode 401). -/
structure AuthOutcome where
  result : Except AuthCheckError AuthContext
  cookieCleared : Bool
deriving DecidableEq, Repr

/-- A failing middleware outcome: cookie cleared when an inline
clearAuthCookie ran or when the catch handler sees a 401. -/
def authFail (e : AuthCheckError) (inlineClear : Bool) : AuthOutcome :=
  { result := .error e, cookieCleared := inlineClear || e.statusCode == 401 }

/-- The authenticate middleware. -/
def authenticate (db : DB) (now : Nat) (cookieToken : Option String) :
    AuthOutcome :=
  match cookieToken with
  | none => authFail .authenticationRequired false
  | some token =>
    match findSessionForAuth db (hashSessionToken token) with
    | none => authFail .invalidSession true
    | some (session, userOpt, orgOpt) =>
      if session.revokedAt.isSome then authFail .sessionRevoked true
      else if session.expiresAt < now then authFail .sessionExpired true
      else
        match userOpt with
        | none => authFail .dataIntegrity true
        | some user =>
          if !user.verified then authFail .emailNotVerifiedAuth false
          else if user.isLocked then authFail .accountLockedAuth false
          else
            match orgOpt with
            | none => authFail .dataIntegrity true
            | some org =>
              if org.deletedAt.isSome then
                authFail .organizationInactiveAuth false
              else
                { result := .ok ⟨session.userId, session.id,
                    session.organizationId⟩,
                  cookieCleared := false }

/-- One login call viewed as a store transition (the HTTP result is
dropped). -/
def loginStep (email password rawToken : String) (now : Nat) (db : DB) : DB :=
  (login db now email password rawToken).1

/-- The lock invariant of §3: isLocked holds exactly when loginAttempts has
reached MAX_LOGIN_ATTEMPTS, for every user row of the store. -/
def LockInv (db : DB) : Prop :=
  ∀ u ∈ db.users, u.isLocked = true ↔ MAX_LOGIN_ATTEMPTS ≤ u.loginAttempts

/-! Sequential execution of the registration surface, for the
one-active-session invariant.  Emails entering these operations are
normalized by the request validation layer (the DTO schemas apply
toLowerCase().trim()), which the invariant theorems take as a hypothesis. -/

/-- The operations of the registration/verification surface, with the
generated OTP code passed explicitly. -/
inductive FlowOp
  | registerOp (email password organizationName otpCode : String)
  | resendOp (email otpCode : String)
  | verifyOp (email otpCode : String)
deriving DecidableEq, Repr

/-- The email submitted with an operation. -/
def FlowOp.email : FlowOp → String
  | .registerOp e _ _ _ => e
  | .resendOp e _ => e
  | .verifyOp e _ => e

/-- Execute one timestamped operation against the store, keeping the
post-state. -/
def runOp (db : DB) (op : Nat × FlowOp) : DB :=
  match op.2 with
  | .registerOp e p o c => (register db op.1 e p o c).1
  | .resendOp e c => (resendCode db op.1 e c).1
  | .verifyOp e c => (verifyEmail db op.1 e c).1

/-- Execute a sequence of timestamped operations. -/
def runOps (db : DB) (ops : List (Nat × FlowOp)) : DB := ops.foldl runOp db

/-- The (email, purpose) key test used by the session lookups, for an
already-normalized email. -/
def keyPred (e : String) (p : OtpPurpose) : OtpSessionRow → Bool :=
  fun s => s.email == e && s.purpose == p

/-- The claimed property: at most one active OtpSession row per
(email, purpose) key. -/
def AtMostOneActive (db : DB) : Prop :=
  ∀ e p, (db.otpSessions.filter (fun s => s.active && keyPred e p s)).length ≤ 1

/-- Internal invariant of the registration surface: stored session emails
are normalized, each belongs to an existing user, session ids are unique
and below the allocator, and every active session is the newest
(find?-first) session of its key. -/
structure SessInv (db : DB) : Prop where
  norm : ∀ s ∈ db.otpSessions, normalizeEmail s.email = s.email
  userEx : ∀ s ∈ db.otpSessions, ∃ u ∈ db.users, u.email = s.email
  activeFirst : ∀ s ∈ db.otpSessions, s.active = true →
    db.otpSessions.find? (keyPred s.email s.purpose) = some s
  idsNodup : (db.otpSessions.map (·.id)).Nodup
  idsFresh : ∀ s ∈ db.otpSessions, s.id < db.nextId

/-! Sample stores used by the concrete witnesses. -/

/-- Sample store user: verified, unlocked, with a known password. -/
def c1User : UserRow :=
  { id := 1, email := "a@x.com", password := hashPassword "Passw0rd1",
    verified := true, verifiedAt := some 0, isLocked := false,
    loginAttempts := 0, lastLoginAt := none, organizationId := 0 }

/-- Sample store organization. -/
def c1Org : OrganizationRow := { id := 0, name := "Acme", deletedAt := none }

/-- Sample locked password-reset session. -/
def c1LockedSession : OtpSessionRow :=
  { id := 2, userId := some 1, organizationId := some 0, email := "a@x.com",
    purpose := .passwordReset, active := true, expiresAt := 86400000,
    attemptCount := 5, maxAttempts := 5, lockUntil := some 900000,
    resendCount := 0, lastSentAt := some 0, lastAttemptAt := some 0 }

/-- Sample store: one verified user with a locked password-reset session. -/
def c1DB : DB :=
  { DB.empty with
    users := [c1User]
    organizations := [c1Org]
    otpSessions := [c1LockedSession]
    nextId := 3 }

/-- Concrete operation sequence exercising the registration surface:
register, then a resend, then a verification attempt. -/
def c5Ops : List (Nat × FlowOp) :=
  [ (0, .registerOp "f@x.com" "Passw0rd1" "Acme" "111111"),
    (1000, .resendOp "f@x.com" "222222"),
    (2000, .verifyOp "f@x.com" "222222") ]

/-- Lookup of an OTP session row by id, as performed by the reread inside
incrementOtpSessionAttempts. -/
def otpSessionById (db : DB) (sessionId : Nat) : Option OtpSessionRow :=
  db.otpSessions.find? (fun s => s.id == sessionId)

/-! Independent rendering of the middleware contract described by the spec:
the post-lookup checks in their stated order, the first failing one
determining the outcome. -/

/-- The ordered list of middleware checks on a fetched session: a flag that
is true when the check fails, paired with the resulting error. -/
def authCheckFailures (now : Nat) (session : SessionRow)
    (userOpt : Option UserRow) (orgOpt : Option OrganizationRow) :
    List (Bool × AuthCheckError) :=
  [ (session.revokedAt.isSome, .sessionRevoked),
    (decide (session.expiresAt < now), .sessionExpired),
    (userOpt.isNone, .dataIntegrity),
    (!((userOpt.map (·.verified)).getD true), .emailNotVerifiedAuth),
    ((userOpt.map (·.isLocked)).getD false, .accountLockedAuth),
    (orgOpt.isNone, .dataIntegrity),
    ((orgOpt.map (·.deletedAt.isSome)).getD false, .organizationInactiveAuth) ]

/-- The first failing check of an ordered check list. -/
def firstFailing : List (Bool × AuthCheckError) → Option AuthCheckError
  | [] => none
  | (b, e) :: rest => if b then some e else firstFailing rest

/-- The middleware result as the spec words it: token present, session
found, then the check cascade with the first failure deciding. -/
def authenticateSpecResult (db : DB) (now : Nat)
    (cookieToken : Option String) : Except AuthCheckError AuthContext :=
  match cookieToken with
  | none => .error .authenticationRequired
  | some token =>
    match findSessionForAuth db (hashSessionToken token) with
    | none => .error .invalidSession
    | some (session, userOpt, orgOpt) =>
      match firstFailing (authCheckFailures now session userOpt orgOpt) with
      | some e => .error e
      | none => .ok ⟨session.userId, session.id, session.organizationId⟩

/-- Witness store user for the lockout scenario: verified, unlocked, zero
attempts. -/
def c2User : UserRow :=
  { id := 1, email := "b@x.com", password := hashPassword "Secret1A",
    verified := true, verifiedAt := some 0, isLocked := false,
    loginAttempts := 0, lastLoginAt := none, organizationId := 0 }

/-- Witness store for the lockout scenario. -/
def c2DB : DB :=
  { DB.empty with
    users := [c2User]
    organizations := [c1Org]
    nextId := 2 }

/-- Witness store user for the wrong-code scenario: not yet verified. -/
def c6User : UserRow :=
  { id := 1, email := "c@x.com", password := hashPassword "Secret1A",
    verified := false, verifiedAt := none, isLocked := false,
    loginAttempts := 0, lastLoginAt := none, organizationId := 0 }

/-- Witness active email-verification session. -/
def c6Session : OtpSessionRow :=
  { id := 2, userId := some 1, organizationId := some 0, email := "c@x.com",
    purpose := .emailVerification, active := true, expiresAt := 86400000,
    attemptCount := 0, maxAttempts := 5, lockUntil := none, resendCount := 0,
    lastSentAt := some 0, lastAttemptAt := none }

/-- Witness unconsumed, unexpired token for code 111111. -/
def c6Token : OtpTokenRow :=
  { id := 3, sessionId := 2, codeHash := hashOTP "111111",
    expiresAt := 900000, consumedAt := none }

/-- Witness store for the wrong-code scenario. -/
def c6DB : DB :=
  { DB.empty with
    users := [c6User]
    organizations := [c1Org]
    otpSessions := [c6Session]
    otpTokens := [c6Token]
    nextId := 4 }

/-- Witness session on device A for the change-password scenario. -/
def c8Session1 : SessionRow :=
  { id := 10, userId := 1, organizationId := 0,
    tokenHash := hashSessionToken "tokA", lastActivity := 0,
    expiresAt := 2592000000, revokedAt := none, revokedReason := none }

/-- Witness sibling session on device B. -/
def c8Session2 : SessionRow :=
  { id := 11, userId := 1, organizationId := 0,
    tokenHash := hashSessionToken "tokB", lastActivity := 0,
    expiresAt := 2592000000, revokedAt := none, revokedReason := none }

/-- Witness store for the change-password scenario: one user logged in on
two devices. -/
def c8DB : DB :=
  { DB.empty with
    users := [c2User]
    organizations := [c1Org]
    sessions := [c8Session1, c8Session2]
    nextId := 12 }

/-- Evaluation time of the mixed-purpose counterexample. -/
def c3Now : Nat := 100000

/-- Counterexample user: registered but unverified. -/
def c3User : UserRow :=
  { id := 1, email := "d@x.com", password := hashPassword "Secret1A",
    verified := false, verifiedAt := none, isLocked := false,
    loginAttempts := 0, lastLoginAt := none, organizationId := 0 }

/-- Counterexample: a password-reset session for the email locked until
after c3Now. -/
def c3LockedReset : OtpSessionRow :=
  { id := 2, userId := some 1, organizationId := some 0, email := "d@x.com",
    purpose := .passwordReset, active := true, expiresAt := 86400000,
    attemptCount := 5, maxAttempts := 5, lockUntil := some 900000,
    resendCount := 0, lastSentAt := some 0, lastAttemptAt := some 0 }

/-- Counterexample: an unlocked active email-verification session for the
same email, past its resend cooldown. -/
def c3ActiveVerify : OtpSessionRow :=
  { id := 3, userId := some 1, organizationId := some 0, email := "d@x.com",
    purpose := .emailVerification, active := true, expiresAt := 86400000,
    attemptCount := 0, maxAttempts := 5, lockUntil := none, resendCount := 0,
    lastSentAt := some 0, lastAttemptAt := none }

/-- The mixed-purpose counterexample store. -/
def c3DB : DB :=
  { DB.empty with
    users := [c3User]
    organizations := [c1Org]
    otpSessions := [c3ActiveVerify, c3LockedReset]
    nextId := 4 }

/-- Witness user for the reset scenario: unverified (reset doubles as
secondary verification). -/
def c4User : UserRow :=
  { id := 1, email := "e@x.com", password := hashPassword "OldSecret1",
    verified := false, verifiedAt := none, isLocked := true,
    loginAttempts := 5, lastLoginAt := none, organizationId := 0 }

/-- Witness active password-reset session. -/
def c4Session : OtpSessionRow :=
  { id := 2, userId := some 1, organizationId := some 0, email := "e@x.com",
    purpose := .passwordReset, active := true, expiresAt := 86400000,
    attemptCount := 0, maxAttempts := 5, lockUntil := none, resendCount := 0,
    lastSentAt := some 0, lastAttemptAt := none }

/-- Witness reset token for code 333333. -/
def c4Token : OtpTokenRow :=
  { id := 3, sessionId := 2, codeHash := hashOTP "333333",
    expiresAt := 900000, consumedAt := none }

/-- Witness live auth session of the user, to be revoked by the reset. -/
def c4AuthSession : SessionRow :=
  { id := 4, userId := 1, organizationId := 0,
    tokenHash := hashSessionToken "tokC", lastActivity := 0,
    expiresAt := 2592000000, revokedAt := none, revokedReason := none }

/-- Witness store for the reset scenario. -/
def c4DB : DB :=
  { DB.empty with
    users := [c4User]
    organizations := [c1Org]
    sessions := [c4AuthSession]
    otpSessions := [c4Session]
    otpTokens := [c4Token]
    nextId := 5 }

/-! Theorems. -/

/-- Every branch of the forgot-password service yields success=true with the
generic message. -/
theorem forgotPassword_result_generic (db : DB) (now : Nat)
    (email otpCode : String) (internalFailure : Bool) :
    (forgotPassword db now email otpCode internalFailure).2.success = true ∧
    (forgotPassword db now email otpCode internalFailure).2.message =
      forgotGenericMessage := by
  unfold forgotPassword
  repeat' first
    | exact ⟨rfl, rfl⟩
    | split
    | dsimp only

/-- A call for an email with no user returns the bare generic success without
touching the store. -/
theorem forgotPassword_no_user (db : DB) (now : Nat) (email otpCode : String)
    (internalFailure : Bool) (h : findUserForLogin db email = none) :
    forgotPassword db now email otpCode internalFailure = (db, forgotSuccess) := by
  cases internalFailure with
  | true => rfl
  | false => simp [forgotPassword, h]

/-- A call for an email with a user and an active password-reset lock returns
the bare generic success without touching the store. -/
theorem forgotPassword_locked (db : DB) (now : Nat) (email otpCode : String)
    (internalFailure : Bool)
    (hu : (findUserForLogin db email).isSome = true)
    (hl : (findPasswordResetSessionsWithActiveLocks db now email).isSome = true) :
    forgotPassword db now email otpCode internalFailure = (db, forgotSuccess) := by
  cases internalFailure with
  | true => rfl
  | false =>
    obtain ⟨pair, hp⟩ := Option.isSome_iff_exists.mp hu
    obtain ⟨lockRow, hlr⟩ := Option.isSome_iff_exists.mp hl
    obtain ⟨user, org⟩ := pair
    simp [forgotPassword, hp, hlr]

/-- C1: whatever internal branch forgot-password takes, the HTTP layer
answers status 200 with success=true and the one generic message; and a call
with a non-existent email and a call with an existing email whose
password-reset state holds an active lock produce byte-identical response
bodies and status codes. -/
theorem forgotPassword_enumeration_safe :
    (∀ db now email otpCode internalFailure,
      (forgotPasswordHttp db now email otpCode internalFailure).1 = 200 ∧
      (forgotPasswordHttp db now email otpCode internalFailure).2.success = true ∧
      (forgotPasswordHttp db now email otpCode internalFailure).2.message =
        forgotGenericMessage) ∧
    (∀ db₁ now₁ email₁ code₁ fail₁ db₂ now₂ email₂ code₂ fail₂,
      findUserForLogin db₁ email₁ = none →
      (findUserForLogin db₂ email₂).isSome = true →
      (findPasswordResetSessionsWithActiveLocks db₂ now₂ email₂).isSome = true →
      forgotPasswordHttp db₁ now₁ email₁ code₁ fail₁ =
        forgotPasswordHttp db₂ now₂ email₂ code₂ fail₂) := by
  constructor
  · intro db now email otpCode internalFailure
    obtain ⟨hs, hm⟩ := forgotPassword_result_generic db now email otpCode
      internalFailure
    exact ⟨rfl, hs, hm⟩
  · intro db₁ now₁ email₁ code₁ fail₁ db₂ now₂ email₂ code₂ fail₂ h1 h2 h3
    have e1 := forgotPassword_no_user db₁ now₁ email₁ code₁ fail₁ h1
    have e2 := forgotPassword_locked db₂ now₂ email₂ code₂ fail₂ h2 h3
    simp [forgotPasswordHttp, e1, e2]

/-- Witness for C1: the general theorem applied to a store without the user
and the sample store whose password-reset session is locked. -/
theorem forgotPassword_enumeration_safe_witness :
    forgotPasswordHttp DB.empty 1000 "nobody@x.com" "123456" false =
      forgotPasswordHttp c1DB 1000 "a@x.com" "123456" false :=
  forgotPassword_enumeration_safe.2 DB.empty 1000 "nobody@x.com" "123456" false
    c1DB 1000 "a@x.com" "123456" false (by decide) (by decide) (by decide)

/-- C7: when the user behind the email is already verified, verify-email
short-circuits before any session lookup and returns the fixed success
result with the store unchanged, so repeated calls are idempotent no-ops. -/
theorem verifyEmail_already_verified_noop (db : DB) (now : Nat)
    (email otpCode : String) (u : UserRow)
    (hu : getUserByEmail db email = some u) (hv : u.verified = true) :
    verifyEmail db now email otpCode =
      (db, .ok ⟨true, "Email already verified"⟩) := by
  unfold verifyEmail
  rw [hu]
  simp [Option.any, hv]

/-- Witness for C7 on the sample store, whose user is verified. -/
theorem verifyEmail_already_verified_noop_witness :
    verifyEmail c1DB 5 "a@x.com" "000000" =
      (c1DB, .ok ⟨true, "Email already verified"⟩) :=
  verifyEmail_already_verified_noop c1DB 5 "a@x.com" "000000" c1User
    (by decide) (by decide)

/-- C10: incrementOtpSessionAttempts always rewrites lockUntil: to
now + OTP_LOCK_DURATION_MINUTES when the incremented count has reached
maxAttempts and to null otherwise — so a count already at the cap installs a
fresh lock on every further failure and a count still below the cap erases
any previously stored lock; the attempt count strictly increases, and the
other session updaters never change it. -/
theorem incrementOtpSessionAttempts_always_writes_lockUntil :
    (∀ db now sessionId cur,
      otpSessionById db sessionId = some cur →
      ∃ db' updated,
        incrementOtpSessionAttempts db now sessionId = some (db', updated) ∧
        updated.attemptCount = cur.attemptCount + 1 ∧
        updated.lockUntil = (if cur.maxAttempts ≤ cur.attemptCount + 1 then
          some (now + OTP_LOCK_DURATION_MINUTES * minuteMs) else none) ∧
        (cur.maxAttempts ≤ cur.attemptCount →
          updated.lockUntil =
            some (now + OTP_LOCK_DURATION_MINUTES * minuteMs)) ∧
        (cur.attemptCount + 1 < cur.maxAttempts →
          updated.lockUntil = none) ∧
        otpSessionById db' sessionId = some updated) ∧
    (∀ db sessionId resendCount lastSentAt s',
      s' ∈ (updateSessionResendMetadata db sessionId resendCount
        lastSentAt).otpSessions →
      ∃ s, s ∈ db.otpSessions ∧ s'.attemptCount = s.attemptCount ∧
        s'.id = s.id) ∧
    (∀ db sessionId s',
      s' ∈ (markOtpSessionInactive db sessionId).otpSessions →
      ∃ s, s ∈ db.otpSessions ∧ s'.attemptCount = s.attemptCount ∧
        s'.id = s.id) := by
  refine ⟨?_, ?_, ?_⟩
  · intro db now sessionId cur hfind
    rw [otpSessionById] at hfind
    have hinc : incrementOtpSessionAttempts db now sessionId =
        some
          ({ db with otpSessions := db.otpSessions.map (fun s =>
              if s.id == sessionId then
                { s with
                  attemptCount := cur.attemptCount + 1
                  lastAttemptAt := some now
                  lockUntil := if cur.maxAttempts ≤ cur.attemptCount + 1
                    then some (now + OTP_LOCK_DURATION_MINUTES * minuteMs)
                    else none }
              else s) },
           { cur with
             attemptCount := cur.attemptCount + 1
             lastAttemptAt := some now
             lockUntil := if cur.maxAttempts ≤ cur.attemptCount + 1
               then some (now + OTP_LOCK_DURATION_MINUTES * minuteMs)
               else none }) := by
      unfold incrementOtpSessionAttempts
      rw [hfind]
    refine ⟨_, _, hinc, rfl, rfl, ?_, ?_, ?_⟩
    · intro hle
      simp only [if_pos (Nat.le_succ_of_le hle)]
    · intro hlt
      simp only [if_neg (Nat.not_le_of_lt hlt)]
    · rw [otpSessionById]
      rw [show ({ db with otpSessions := db.otpSessions.map (fun s =>
          if s.id == sessionId then
            { s with
              attemptCount := cur.attemptCount + 1
              lastAttemptAt := some now
              lockUntil := if cur.maxAttempts ≤ cur.attemptCount + 1
                then some (now + OTP_LOCK_DURATION_MINUTES * minuteMs)
                else none }
          else s) } : DB).otpSessions = db.otpSessions.map (fun s =>
          if s.id == sessionId then
            { s with
              attemptCount := cur.attemptCount + 1
              lastAttemptAt := some now
              lockUntil := if cur.maxAttempts ≤ cur.attemptCount + 1
                then some (now + OTP_LOCK_DURATION_MINUTES * minuteMs)
                else none }
          else s) from rfl]
      rw [List.find?_map]
      have hpred : ((fun (s : OtpSessionRow) => s.id == sessionId) ∘
          (fun s => if s.id == sessionId then
            { s with
              attemptCount := cur.attemptCount + 1
              lastAttemptAt := some now
              lockUntil := if cur.maxAttempts ≤ cur.attemptCount + 1
                then some (now + OTP_LOCK_DURATION_MINUTES * minuteMs)
                else none }
            else s)) = fun s => s.id == sessionId := by
        funext s
        by_cases h : s.id = sessionId <;> simp [h]
      rw [hpred, hfind]
      have hcid : cur.id = sessionId := by simpa using List.find?_some hfind
      simp [hcid]
  · intro db sessionId resendCount lastSentAt s' hmem
    simp only [updateSessionResendMetadata, List.mem_map] at hmem
    obtain ⟨s, hs, heq⟩ := hmem
    refine ⟨s, hs, ?_, ?_⟩ <;>
      (subst heq; by_cases h : s.id == sessionId <;> simp [h])
  · intro db sessionId s' hmem
    simp only [markOtpSessionInactive, List.mem_map] at hmem
    obtain ⟨s, hs, heq⟩ := hmem
    refine ⟨s, hs, ?_, ?_⟩ <;>
      (subst heq; by_cases h : s.id == sessionId <;> simp [h])

/-- Witness for C10: a fifth failed attempt on the sample locked session
(count already at the cap of 5) installs a fresh lock at now + 15 minutes. -/
theorem incrementOtpSessionAttempts_always_writes_lockUntil_witness :
    ∃ db' updated,
      incrementOtpSessionAttempts c1DB 1000000 2 = some (db', updated) ∧
      updated.lockUntil = some (1000000 + OTP_LOCK_DURATION_MINUTES * minuteMs) ∧
      updated.attemptCount = 6 := by
  obtain ⟨db', updated, h1, h2, _, h4, _, _⟩ :=
    incrementOtpSessionAttempts_always_writes_lockUntil.1 c1DB 1000000 2
      c1LockedSession (by decide)
  exact ⟨db', updated, h1, h4 (by decide), h2⟩

/-- C9: the middleware evaluates token-present, session-found, revoked,
expired, user-present, user-verified, user-unlocked, organization-present,
organization-not-deleted in exactly this order with the first failing check
deciding the outcome; AuthenticationRequired, InvalidSession, SessionRevoked
and SessionExpired are 401 responses that clear the cookie, the missing
references are the 500 DataIntegrityError, and EmailNotVerified,
AccountLocked and OrganizationInactive are 403 responses that keep the
cookie. -/
theorem authenticate_check_order :
    (∀ db now cookieToken,
      (authenticate db now cookieToken).result =
        authenticateSpecResult db now cookieToken) ∧
    (∀ db now cookieToken e,
      (authenticate db now cookieToken).result = .error e →
      (e.statusCode = 401 →
        (authenticate db now cookieToken).cookieCleared = true) ∧
      (e.statusCode = 403 →
        (authenticate db now cookieToken).cookieCleared = false)) ∧
    (AuthCheckError.authenticationRequired.statusCode = 401 ∧
     AuthCheckError.invalidSession.statusCode = 401 ∧
     AuthCheckError.sessionRevoked.statusCode = 401 ∧
     AuthCheckError.sessionExpired.statusCode = 401 ∧
     AuthCheckError.dataIntegrity.statusCode = 500 ∧
     AuthCheckError.emailNotVerifiedAuth.statusCode = 403 ∧
     AuthCheckError.accountLockedAuth.statusCode = 403 ∧
     AuthCheckError.organizationInactiveAuth.statusCode = 403) := by
  refine ⟨?_, ?_, by decide⟩
  · intro db now cookieToken
    unfold authenticate authenticateSpecResult
    cases cookieToken with
    | none => rfl
    | some t =>
      dsimp only
      cases h : findSessionForAuth db (hashSessionToken t) with
      | none => rfl
      | some trip =>
        obtain ⟨s, uo, oo⟩ := trip
        cases uo <;> cases oo <;>
          simp [authCheckFailures, firstFailing, authFail] <;>
          split_ifs <;> simp_all [authFail]
  · intro db now cookieToken e
    unfold authenticate
    cases cookieToken with
    | none =>
      intro hh
      simp only [authFail, Except.error.injEq] at hh
      subst hh
      exact ⟨fun _ => rfl, fun hc => absurd hc (by decide)⟩
    | some t =>
      dsimp only
      cases h : findSessionForAuth db (hashSessionToken t) with
      | none =>
        intro hh
        simp only [authFail, Except.error.injEq] at hh
        subst hh
        exact ⟨fun _ => rfl, fun hc => absurd hc (by decide)⟩
      | some trip =>
        obtain ⟨s, uo, oo⟩ := trip
        cases uo <;> cases oo <;> dsimp only <;>
          split_ifs <;>
          (intro hh
           first
           | exact Except.noConfusion hh
           | (simp only [authFail, Except.error.injEq] at hh
              all_goals
                (subst hh
                 refine ⟨?_, ?_⟩ <;> intro hc <;>
                   first
                   | rfl
                   | exact absurd hc (by decide))))

/-- Witness for C9: on the empty store with no cookie the middleware answers
AuthenticationRequired and the (stale) cookie is cleared. -/
theorem authenticate_check_order_witness :
    (authenticate DB.empty 0 none).cookieCleared = true :=
  ((authenticate_check_order.2.1 DB.empty 0 none .authenticationRequired
    rfl).1) rfl

/-- find? through a map whose function leaves the tested fields alone. -/
theorem find?_map_congr {α β : Type} (f : α → β) (p : β → Bool) (q : α → Bool)
    (h : ∀ a, p (f a) = q a) (l : List α) :
    (l.map f).find? p = (l.find? q).map f := by
  rw [List.find?_map]
  have hq : p ∘ f = q := funext h
  rw [hq]

/-- Two user rows of a store with primary-key integrity that share an id are
the same row. -/
theorem users_id_unique {db : DB} (h : (db.users.map (·.id)).Nodup)
    {u v : UserRow} (hu : u ∈ db.users) (hv : v ∈ db.users)
    (hid : u.id = v.id) : u = v :=
  List.inj_on_of_nodup_map h hu hv hid

/-- A failed-password login writes exactly the incremented attempt counter
(with the lock flag derived from it) and a LOGIN_FAILED audit row, and
reports InvalidCredentials. -/
theorem login_wrong_password_step (db : DB) (now : Nat)
    (email password rawToken : String) (u : UserRow) (org : OrganizationRow)
    (hfind : findUserForLogin db email = some (u, org))
    (hver : u.verified = true) (hlock : u.isLocked = false)
    (horg : org.deletedAt = none)
    (hpw : verifyPassword password u.password = false) :
    login db now email password rawToken =
      ({ db with
         users := db.users.map (fun w =>
           if w.id == u.id then
             { w with
               loginAttempts := u.loginAttempts + 1
               isLocked := decide (MAX_LOGIN_ATTEMPTS ≤ u.loginAttempts + 1) }
           else w)
         auditLogs :=
           { userId := some u.id, organizationId := some u.organizationId,
             action := "LOGIN_FAILED", resource := "USER" } :: db.auditLogs },
       .error .invalidCredentials) := by
  unfold login
  rw [hfind]
  simp [hver, hlock, horg, hpw, incrementUserLoginAttempts, addAuditLog]

/-- findUserForLogin is stable under user updates that keep the email and
organization pointer, with the found row mapped along. -/
theorem findUserForLogin_map (db db₂ : DB) (email : String) {u : UserRow}
    {org : OrganizationRow} (f : UserRow → UserRow)
    (husers : db₂.users = db.users.map f)
    (horgs : db₂.organizations = db.organizations)
    (hemail : ∀ w, (f w).email = w.email)
    (horgid : ∀ w, (f w).organizationId = w.organizationId)
    (hfind : findUserForLogin db email = some (u, org)) :
    findUserForLogin db₂ email = some (f u, org) := by
  unfold findUserForLogin at hfind ⊢
  cases hu : db.users.find? (fun w => w.email == normalizeEmail email) with
  | none =>
    simp only [hu] at hfind
    exact Option.noConfusion hfind
  | some u₀ =>
    simp only [hu] at hfind
    cases ho : db.organizations.find? (fun o => o.id == u₀.organizationId) with
    | none =>
      simp only [ho] at hfind
      exact Option.noConfusion hfind
    | some o₀ =>
      simp only [ho, Option.some.injEq, Prod.mk.injEq] at hfind
      obtain ⟨rfl, rfl⟩ := hfind
      rw [husers, horgs]
      rw [find?_map_congr f _ (fun w => w.email == normalizeEmail email)
        (fun a => by rw [hemail]) db.users]
      rw [hu]
      simp [horgid, ho]

/-- k consecutive wrong-password logins (k up to the cap) drive the attempt
counter to exactly k, with the lock flag derived from the counter. -/
theorem login_wrong_password_iter (db : DB) (now : Nat)
    (email password rawToken : String) (u : UserRow) (org : OrganizationRow)
    (hfind : findUserForLogin db email = some (u, org))
    (hver : u.verified = true) (hlock : u.isLocked = false)
    (hatt : u.loginAttempts = 0) (horg : org.deletedAt = none)
    (hpw : verifyPassword password u.password = false) :
    ∀ k, k ≤ MAX_LOGIN_ATTEMPTS →
      findUserForLogin ((loginStep email password rawToken now)^[k] db) email =
        some ({ u with
                loginAttempts := k
                isLocked := decide (MAX_LOGIN_ATTEMPTS ≤ k) }, org) := by
  intro k
  induction k with
  | zero =>
    intro _
    rw [Function.iterate_zero_apply]
    rw [show (decide (MAX_LOGIN_ATTEMPTS ≤ 0)) = false by decide, ← hatt,
      ← hlock]
    exact hfind
  | succ k ih =>
    intro hk
    have hstate := ih (Nat.le_of_succ_le hk)
    have hkl : decide (MAX_LOGIN_ATTEMPTS ≤ k) = false := by
      simp [Nat.not_le_of_lt (Nat.lt_of_succ_le hk)]
    have hstep := login_wrong_password_step
      ((loginStep email password rawToken now)^[k] db) now email password
      rawToken
      { u with
        loginAttempts := k
        isLocked := decide (MAX_LOGIN_ATTEMPTS ≤ k) } org hstate hver hkl horg
      hpw
    rw [Function.iterate_succ_apply']
    have husers := congrArg (fun x => x.1.users) hstep
    have horgs := congrArg (fun x => x.1.organizations) hstep
    dsimp only at husers horgs
    have hmapped := findUserForLogin_map
      ((loginStep email password rawToken now)^[k] db)
      (loginStep email password rawToken now
        ((loginStep email password rawToken now)^[k] db))
      email
      (fun w =>
        if w.id == u.id then
          { w with
            loginAttempts := k + 1
            isLocked := decide (MAX_LOGIN_ATTEMPTS ≤ k + 1) }
        else w)
      husers horgs
      (fun w => by by_cases h : w.id == u.id <;> simp [h])
      (fun w => by by_cases h : w.id == u.id <;> simp [h])
      hstate
    rw [hmapped]
    simp

/-- The user table after a login call: unchanged, or the failed-password
increment, or the success-path reset plus lastLoginAt update — the latter
two only for a found, unlocked target. -/
theorem login_users_cases (db : DB) (now : Nat)
    (email password rawToken : String) :
    (login db now email password rawToken).1.users = db.users ∨
    (∃ t org, findUserForLogin db email = some (t, org) ∧
      t.isLocked = false ∧
      ((login db now email password rawToken).1.users = db.users.map (fun w =>
        if w.id == t.id then
          { w with
            loginAttempts := t.loginAttempts + 1
            isLocked := decide (MAX_LOGIN_ATTEMPTS ≤ t.loginAttempts + 1) }
        else w) ∨
       (login db now email password rawToken).1.users =
         (db.users.map (fun w =>
           if w.id == t.id then { w with loginAttempts := 0 } else w)).map
           (fun w =>
             if w.id == t.id then { w with lastLoginAt := some now }
             else w))) := by
  unfold login
  cases hf : findUserForLogin db email with
  | none => left; rfl
  | some pair =>
    obtain ⟨t, org⟩ := pair
    dsimp only
    by_cases hv : t.verified
    · by_cases hl : t.isLocked
      · left; simp [hv, hl]
      · by_cases ho : org.deletedAt.isSome
        · left; simp [hv, hl, ho]
        · by_cases hp : verifyPassword password t.password
          · right
            refine ⟨t, org, rfl, by simpa using hl, Or.inr ?_⟩
            simp [hv, hl, ho, hp, resetUserLoginAttempts, createSession,
              updateUserLastLogin, addAuditLog]
          · right
            refine ⟨t, org, rfl, by simpa using hl, Or.inl ?_⟩
            simp [hv, hl, ho, hp, incrementUserLoginAttempts, addAuditLog]
    · left
      simp [hv]

/-- Frame facts of incrementOtpSessionAttempts: only the otpSessions table
changes. -/
theorem incrementOtpSessionAttempts_frame (db : DB) (now sessionId : Nat)
    (db' : DB) (updated : OtpSessionRow)
    (h : incrementOtpSessionAttempts db now sessionId = some (db', updated)) :
    db'.users = db.users ∧ db'.organizations = db.organizations ∧
    db'.sessions = db.sessions ∧ db'.otpTokens = db.otpTokens ∧
    db'.otpAttempts = db.otpAttempts ∧ db'.auditLogs = db.auditLogs ∧
    db'.nextId = db.nextId := by
  unfold incrementOtpSessionAttempts at h
  cases hf : db.otpSessions.find? (fun s => s.id == sessionId) with
  | none => rw [hf] at h; exact Option.noConfusion h
  | some cur =>
    rw [hf] at h
    simp only [Option.some.injEq, Prod.mk.injEq] at h
    obtain ⟨hdb, _⟩ := h
    subst hdb
    exact ⟨rfl, rfl, rfl, rfl, rfl, rfl, rfl⟩

/-- The user table after a reset-password call: unchanged, or the compound
recovery update of the target user. -/
theorem resetPassword_users_cases (db : DB) (now : Nat)
    (email otpCode newPassword : String) :
    (resetPassword db now email otpCode newPassword).1.users = db.users ∨
    ∃ (uid : Nat) (wasUnv : Bool),
      (resetPassword db now email otpCode newPassword).1.users =
        db.users.map (fun w =>
          if w.id == uid then
            { w with
              password := hashPassword newPassword
              loginAttempts := 0
              isLocked := false
              verified := true
              verifiedAt := if wasUnv then some now else w.verifiedAt }
          else w) := by
  unfold resetPassword
  cases hf : findUserForLogin db email with
  | none => left; rfl
  | some pair =>
    obtain ⟨user, org⟩ := pair
    dsimp only
    cases hs : findActivePasswordResetSession db email with
    | none => left; rfl
    | some session =>
      dsimp only
      split
      · left; rfl
      · split
        · left; rfl
        · cases ht : findUnconsumedOtpTokens db session.id with
          | nil => left; rfl
          | cons token rest =>
            dsimp only
            split
            · left; rfl
            · split
              · left; rfl
              · split
                · cases hi : incrementOtpSessionAttempts db now session.id with
                  | none => left; rfl
                  | some pr =>
                    obtain ⟨db1, updated⟩ := pr
                    left
                    have hfr := incrementOtpSessionAttempts_frame db now
                      session.id db1 updated hi
                    simp [createPasswordResetOtpAttempt, hfr.1]
                · right
                  refine ⟨user.id, !user.verified, ?_⟩
                  simp [markOtpTokenConsumed, markOtpSessionInactive,
                    updateUserPassword, revokeUserSessions,
                    createPasswordResetOtpAttempt, addAuditLog]

/-- The user found for login is a row of the user table. -/
theorem findUserForLogin_mem {db : DB} {email : String} {t : UserRow}
    {org : OrganizationRow} (h : findUserForLogin db email = some (t, org)) :
    t ∈ db.users := by
  unfold findUserForLogin at h
  cases hu : db.users.find? (fun w => w.email == normalizeEmail email) with
  | none =>
    simp only [hu] at h
    exact Option.noConfusion h
  | some u₀ =>
    simp only [hu] at h
    cases ho : db.organizations.find? (fun o => o.id == u₀.organizationId) with
    | none =>
      simp only [ho] at h
      exact Option.noConfusion h
    | some o₀ =>
      simp only [ho, Option.some.injEq, Prod.mk.injEq] at h
      obtain ⟨rfl, rfl⟩ := h
      exact List.mem_of_find?_eq_some hu

/-- C2: five consecutive wrong-password logins on a verified, unlocked,
fresh user set isLocked with loginAttempts = 5; a locked user is rejected
with ACCOUNT_LOCKED even on the correct password and the store is untouched;
no login call ever clears isLocked; and the invariant isLocked iff
loginAttempts has reached MAX_LOGIN_ATTEMPTS is preserved by login and by
password reset, whose user update clears both fields. -/
theorem login_lockout_monotonic :
    (∀ db now email password rawToken u org,
      findUserForLogin db email = some (u, org) →
      u.verified = true → u.isLocked = false → u.loginAttempts = 0 →
      org.deletedAt = none →
      verifyPassword password u.password = false →
      ∃ u', findUserForLogin
          ((loginStep email password rawToken now)^[MAX_LOGIN_ATTEMPTS] db)
          email = some (u', org) ∧
        u'.isLocked = true ∧ u'.loginAttempts = MAX_LOGIN_ATTEMPTS) ∧
    (∀ db now email password rawToken u org,
      findUserForLogin db email = some (u, org) →
      u.verified = true → u.isLocked = true →
      login db now email password rawToken =
        (db, .error .accountLockedLogin) ∧
      AppErr.accountLockedLogin.code = some "ACCOUNT_LOCKED") ∧
    (∀ db now email password rawToken,
      (db.users.map (·.id)).Nodup →
      ∀ u ∈ db.users, u.isLocked = true →
      ∀ u' ∈ (login db now email password rawToken).1.users,
        u'.id = u.id → u'.isLocked = true) ∧
    (∀ db now email password rawToken,
      (db.users.map (·.id)).Nodup → LockInv db →
      LockInv (login db now email password rawToken).1) ∧
    (∀ db now email otpCode newPassword,
      LockInv db → LockInv (resetPassword db now email otpCode newPassword).1) ∧
    (∀ db now userId passwordHash wasUnverified u',
      u' ∈ (updateUserPassword db now userId passwordHash wasUnverified).users →
      u'.id = userId → u'.isLocked = false ∧ u'.loginAttempts = 0) := by
  refine ⟨?_, ?_, ?_, ?_, ?_, ?_⟩
  · intro db now email password rawToken u org hfind hver hlock hatt horg hpw
    refine ⟨{ u with
              loginAttempts := MAX_LOGIN_ATTEMPTS
              isLocked := decide (MAX_LOGIN_ATTEMPTS ≤ MAX_LOGIN_ATTEMPTS) },
      login_wrong_password_iter db now email password rawToken u org hfind
        hver hlock hatt horg hpw MAX_LOGIN_ATTEMPTS (Nat.le_refl _),
      rfl, rfl⟩
  · intro db now email password rawToken u org hfind hver hlock
    constructor
    · unfold login
      rw [hfind]
      simp [hver, hlock]
    · rfl
  · intro db now email password rawToken hnodup u hu hul u' hu' hid
    rcases login_users_cases db now email password rawToken with
      hcase | ⟨t, org, hf, htl, hcase | hcase⟩
    · rw [hcase] at hu'
      rw [users_id_unique hnodup hu' hu hid]
      exact hul
    · rw [hcase] at hu'
      obtain ⟨w, hw, rfl⟩ := List.mem_map.mp hu'
      have hwid : w.id = u.id := by
        by_cases h : w.id = t.id <;> simpa [h] using hid
      have hwu : w = u := users_id_unique hnodup hw hu hwid
      subst hwu
      by_cases h : w.id = t.id
      · have ht : t ∈ db.users := findUserForLogin_mem hf
        have hwt : w = t := users_id_unique hnodup hw ht h
        rw [hwt] at hul
        rw [hul] at htl
        exact Bool.noConfusion htl
      · simpa [h] using hul
    · rw [hcase] at hu'
      obtain ⟨v, hv, rfl⟩ := List.mem_map.mp hu'
      obtain ⟨w, hw, rfl⟩ := List.mem_map.mp hv
      have hwid : w.id = u.id := by
        by_cases h : w.id = t.id <;> simpa [h] using hid
      have hwu : w = u := users_id_unique hnodup hw hu hwid
      subst hwu
      by_cases h : w.id = t.id <;> simpa [h] using hul
  · intro db now email password rawToken hnodup hinv
    rcases login_users_cases db now email password rawToken with
      hcase | ⟨t, org, hf, htl, hcase | hcase⟩
    · intro u hu
      rw [hcase] at hu
      exact hinv u hu
    · intro u hu
      rw [hcase] at hu
      obtain ⟨w, hw, rfl⟩ := List.mem_map.mp hu
      by_cases h : w.id = t.id
      · simp [h]
      · simpa [h] using hinv w hw
    · intro u hu
      rw [hcase] at hu
      obtain ⟨v, hv, rfl⟩ := List.mem_map.mp hu
      obtain ⟨w, hw, rfl⟩ := List.mem_map.mp hv
      by_cases h : w.id = t.id
      · have ht : t ∈ db.users := findUserForLogin_mem hf
        have hwt : w = t := users_id_unique hnodup hw ht h
        subst hwt
        simp [h, htl, MAX_LOGIN_ATTEMPTS]
      · simpa [h] using hinv w hw
  · intro db now email otpCode newPassword hinv
    rcases resetPassword_users_cases db now email otpCode newPassword with
      hcase | ⟨uid, wasUnv, hcase⟩
    · intro u hu
      rw [hcase] at hu
      exact hinv u hu
    · intro u hu
      rw [hcase] at hu
      obtain ⟨w, hw, rfl⟩ := List.mem_map.mp hu
      by_cases h : w.id = uid
      · simp [h, MAX_LOGIN_ATTEMPTS]
      · simpa [h] using hinv w hw
  · intro db now userId passwordHash wasUnverified u' hu' hid
    unfold updateUserPassword at hu'
    obtain ⟨w, hw, rfl⟩ := List.mem_map.mp hu'
    by_cases h : w.id = userId
    · simp [h]
    · rw [if_neg (by simpa using h)] at hid ⊢
      exact absurd hid h

/-- Witness for C2: five wrong-password logins on the sample user leave the
row locked with loginAttempts = 5. -/
theorem login_lockout_monotonic_witness :
    ∃ u', findUserForLogin
        ((loginStep "b@x.com" "wrongpass" "tok" 50)^[MAX_LOGIN_ATTEMPTS] c2DB)
        "b@x.com" = some (u', c1Org) ∧
      u'.isLocked = true ∧ u'.loginAttempts = MAX_LOGIN_ATTEMPTS :=
  login_lockout_monotonic.1 c2DB 50 "b@x.com" "wrongpass" "tok" c2User c1Org
    (by decide) rfl rfl rfl rfl (by decide)

/-- C6: a wrong code against an active, unexpired, unlocked session with a
valid newest token increments attemptCount by exactly one, writes lockUntil
(to now + lock duration when the new count reaches maxAttempts, keeping the
incremented count), appends one FAILURE OtpAttempt row, and fails with
InvalidCode carrying attemptsRemaining = max(0, maxAttempts - newCount). -/
theorem verifyEmail_wrong_code (db : DB) (now : Nat) (email otpCode : String)
    (session : OtpSessionRow) (token : OtpTokenRow) (rest : List OtpTokenRow)
    (hnv : (getUserByEmail db email).any (·.verified) = false)
    (hs : findActiveOtpSession db email = some session)
    (hexp : ¬(session.expiresAt < now))
    (hlock : lockIsActive session.lockUntil now = false)
    (htok : findUnconsumedOtpTokens db session.id = token :: rest)
    (htexp : ¬(token.expiresAt < now))
    (hch : (token.codeHash == "") = false)
    (hbad : verifyOTP otpCode token.codeHash = false)
    (hfind : otpSessionById db session.id = some session) :
    verifyEmail db now email otpCode =
      ({ db with
         otpSessions := db.otpSessions.map (fun s =>
           if s.id == session.id then
             { s with
               attemptCount := session.attemptCount + 1
               lastAttemptAt := some now
               lockUntil := if session.maxAttempts ≤ session.attemptCount + 1
                 then some (now + OTP_LOCK_DURATION_MINUTES * minuteMs)
                 else none }
           else s)
         otpAttempts :=
           { sessionId := session.id, tokenId := some token.id,
             userId := session.userId, email := normalizeEmail email,
             purpose := .emailVerification, status := .failure,
             reason := some "INVALID_CODE" } :: db.otpAttempts },
       .error (.invalidVerificationCode
         (session.maxAttempts - (session.attemptCount + 1)))) ∧
    ((session.maxAttempts - (session.attemptCount + 1) : Nat) : Int) =
      max 0 ((session.maxAttempts : Int) - ((session.attemptCount : Int) + 1)) := by
  constructor
  · have hfind' : db.otpSessions.find? (fun s => s.id == session.id) =
        some session := hfind
    have hinc : incrementOtpSessionAttempts db now session.id =
        some
          ({ db with otpSessions := db.otpSessions.map (fun s =>
              if s.id == session.id then
                { s with
                  attemptCount := session.attemptCount + 1
                  lastAttemptAt := some now
                  lockUntil :=
                    if session.maxAttempts ≤ session.attemptCount + 1
                    then some (now + OTP_LOCK_DURATION_MINUTES * minuteMs)
                    else none }
              else s) },
           { session with
             attemptCount := session.attemptCount + 1
             lastAttemptAt := some now
             lockUntil := if session.maxAttempts ≤ session.attemptCount + 1
               then some (now + OTP_LOCK_DURATION_MINUTES * minuteMs)
               else none }) := by
      unfold incrementOtpSessionAttempts
      rw [hfind']
    unfold verifyEmail
    rw [hnv]
    simp only [Bool.false_eq_true, if_false]
    rw [hs]
    dsimp only
    rw [if_neg hexp]
    rw [if_neg (by simp [hlock])]
    rw [htok]
    dsimp only
    rw [if_neg htexp]
    rw [if_neg (by simp [hch])]
    rw [if_pos (by simp [hbad])]
    rw [hinc]
    rfl
  · rw [max_def]
    split_ifs <;> omega

/-- Witness for C6: code 222222 against the sample session holding token
111111 increments the counter to 1 and reports four attempts remaining. -/
theorem verifyEmail_wrong_code_witness :
    (verifyEmail c6DB 1000 "c@x.com" "222222").2 =
      .error (.invalidVerificationCode 4) := by
  have h := (verifyEmail_wrong_code c6DB 1000 "c@x.com" "222222" c6Session
    c6Token [] (by decide) (by decide) (by decide) (by decide) (by decide)
    (by decide) (by decide) (by decide) (by decide)).1
  rw [h]
  rfl

/-- Components of a successful findSessionForAuth lookup. -/
theorem findSessionForAuth_inv {db : DB} {hash : String} {s : SessionRow}
    {uo : Option UserRow} {oo : Option OrganizationRow}
    (h : findSessionForAuth db hash = some (s, uo, oo)) :
    db.sessions.find? (fun t => t.tokenHash == hash) = some s ∧
    uo = db.users.find? (fun u => u.id == s.userId) ∧
    oo = db.organizations.find? (fun o => o.id == s.organizationId) := by
  unfold findSessionForAuth at h
  cases hs : db.sessions.find? (fun t => t.tokenHash == hash) with
  | none =>
    simp only [hs] at h
    exact Option.noConfusion h
  | some s₀ =>
    simp only [hs, Option.some.injEq, Prod.mk.injEq] at h
    refine ⟨?_, ?_, ?_⟩
    · rw [h.1]
    · rw [← h.2.1, h.1]
    · rw [← h.2.2, h.1]

/-- findSessionForAuth through table updates that keep the token hash, the
session's foreign keys and the user ids. -/
theorem findSessionForAuth_map (db db₂ : DB) (hash : String) {s : SessionRow}
    {uo : Option UserRow} {oo : Option OrganizationRow}
    (g : SessionRow → SessionRow) (f : UserRow → UserRow)
    (hsess : db₂.sessions = db.sessions.map g)
    (husers : db₂.users = db.users.map f)
    (horgs : db₂.organizations = db.organizations)
    (hghash : ∀ t, (g t).tokenHash = t.tokenHash)
    (hguid : ∀ t, (g t).userId = t.userId)
    (hgoid : ∀ t, (g t).organizationId = t.organizationId)
    (hfid : ∀ w, (f w).id = w.id)
    (hf : findSessionForAuth db hash = some (s, uo, oo)) :
    findSessionForAuth db₂ hash = some (g s, uo.map f, oo) := by
  obtain ⟨hfs, huo, hoo⟩ := findSessionForAuth_inv hf
  unfold findSessionForAuth
  rw [hsess, find?_map_congr g _ (fun t => t.tokenHash == hash)
    (fun a => by rw [hghash]) db.sessions, hfs]
  simp only [Option.map_some']
  rw [husers, horgs, hguid s, hgoid s]
  rw [find?_map_congr f _ (fun w => w.id == s.userId)
    (fun a => by rw [hfid]) db.users]
  rw [← huo, ← hoo]

/-- The exact store written by a successful change-password call: the new
hash on the user, revocation of precisely the active sibling sessions with
reason password_changed, and one audit row. -/
theorem changePassword_success_eq (db : DB) (now : Nat)
    (userId sessionId : Nat) (currentPassword newPassword : String)
    (user : UserRow) (hu : findUserById db userId = some user)
    (hpw : verifyPassword currentPassword user.password = true) :
    changePassword db now userId sessionId currentPassword newPassword =
      ({ db with
         users := db.users.map (fun w =>
           if w.id == userId then { w with password := hashPassword newPassword }
           else w)
         sessions := db.sessions.map (fun t =>
           if t.userId == userId && t.revokedAt == none &&
              !(t.id == sessionId) then
             { t with
               revokedAt := some now
               revokedReason := some "password_changed" }
           else t)
         auditLogs :=
           { userId := some userId, organizationId := some user.organizationId,
             action := "UPDATE", resource := "USER" } :: db.auditLogs },
       .ok ⟨true, "Password changed successfully"⟩) := by
  unfold changePassword
  rw [hu]
  simp [hpw, updateUserPasswordOnly, revokeUserSessionsExcept, addAuditLog]

/-- Conditions implied by a successful authenticate outcome. -/
theorem authenticate_ok_inv {db : DB} {now : Nat} {tok : String}
    {ctx : AuthContext}
    (h : (authenticate db now (some tok)).result = .ok ctx) :
    ∃ s u o, findSessionForAuth db (hashSessionToken tok) =
        some (s, some u, some o) ∧
      s.revokedAt = none ∧ ¬(s.expiresAt < now) ∧ u.verified = true ∧
      u.isLocked = false ∧ o.deletedAt = none ∧
      ctx = ⟨s.userId, s.id, s.organizationId⟩ := by
  unfold authenticate at h
  dsimp only at h
  cases hf : findSessionForAuth db (hashSessionToken tok) with
  | none =>
    rw [hf] at h
    exact Except.noConfusion h
  | some trip =>
    obtain ⟨s, uo, oo⟩ := trip
    rw [hf] at h
    dsimp only at h
    by_cases h1 : s.revokedAt.isSome
    · rw [if_pos h1] at h
      exact Except.noConfusion h
    · rw [if_neg h1] at h
      by_cases h2 : s.expiresAt < now
      · rw [if_pos h2] at h
        exact Except.noConfusion h
      · rw [if_neg h2] at h
        cases uo with
        | none => exact Except.noConfusion h
        | some u =>
          dsimp only at h
          by_cases h3 : (!u.verified) = true
          · rw [if_pos h3] at h
            exact Except.noConfusion h
          · rw [if_neg h3] at h
            by_cases h4 : u.isLocked
            · rw [if_pos h4] at h
              exact Except.noConfusion h
            · rw [if_neg h4] at h
              cases oo with
              | none => exact Except.noConfusion h
              | some o =>
                dsimp only at h
                by_cases h5 : o.deletedAt.isSome
                · rw [if_pos h5] at h
                  exact Except.noConfusion h
                · rw [if_neg h5] at h
                  dsimp only at h
                  refine ⟨s, u, o, rfl,
                    Option.not_isSome_iff_eq_none.mp h1, h2, ?_,
                    Bool.eq_false_iff.mpr h4,
                    Option.not_isSome_iff_eq_none.mp h5, ?_⟩
                  · simpa using h3
                  · exact (Except.ok.inj h).symm

/-- C8: a change-password call with the correct current password revokes
exactly the callers sibling active sessions with reason password_changed and
leaves the calling session row untouched, so the same cookie still
authenticates afterwards while every sibling session is rejected with
SessionRevoked. -/
theorem changePassword_revokes_only_siblings :
    (∀ db now userId sessionId currentPassword newPassword user,
      findUserById db userId = some user →
      verifyPassword currentPassword user.password = true →
      changePassword db now userId sessionId currentPassword newPassword =
        ({ db with
           users := db.users.map (fun w =>
             if w.id == userId then
               { w with password := hashPassword newPassword }
             else w)
           sessions := db.sessions.map (fun t =>
             if t.userId == userId && t.revokedAt == none &&
                !(t.id == sessionId) then
               { t with
                 revokedAt := some now
                 revokedReason := some "password_changed" }
             else t)
           auditLogs :=
             { userId := some userId,
               organizationId := some user.organizationId,
               action := "UPDATE", resource := "USER" } :: db.auditLogs },
         .ok ⟨true, "Password changed successfully"⟩)) ∧
    (∀ db now userId sessionId currentPassword newPassword user now₂ tok ctx,
      findUserById db userId = some user →
      verifyPassword currentPassword user.password = true →
      (authenticate db now₂ (some tok)).result = .ok ctx →
      ctx.sessionId = sessionId →
      (authenticate (changePassword db now userId sessionId currentPassword
        newPassword).1 now₂ (some tok)).result = .ok ctx) ∧
    (∀ db now userId sessionId currentPassword newPassword user now₂ tok ctx,
      findUserById db userId = some user →
      verifyPassword currentPassword user.password = true →
      (authenticate db now₂ (some tok)).result = .ok ctx →
      ctx.userId = userId → ctx.sessionId ≠ sessionId →
      (authenticate (changePassword db now userId sessionId currentPassword
        newPassword).1 now₂ (some tok)).result = .error .sessionRevoked) := by
  refine ⟨?_, ?_, ?_⟩
  · intro db now userId sessionId currentPassword newPassword user hu hpw
    exact changePassword_success_eq db now userId sessionId currentPassword
      newPassword user hu hpw
  · intro db now userId sessionId currentPassword newPassword user now₂ tok
      ctx hu hpw hok hsid
    obtain ⟨s, u₂, o₂, hf, hrev, hexp, hver, hlk, hdel, hctx⟩ :=
      authenticate_ok_inv hok
    have hdb1 : (changePassword db now userId sessionId currentPassword
        newPassword).1 =
      { db with
        users := db.users.map (fun w =>
          if w.id == userId then { w with password := hashPassword newPassword }
          else w)
        sessions := db.sessions.map (fun t =>
          if t.userId == userId && t.revokedAt == none &&
             !(t.id == sessionId) then
            { t with
              revokedAt := some now
              revokedReason := some "password_changed" }
          else t)
        auditLogs :=
          { userId := some userId, organizationId := some user.organizationId,
            action := "UPDATE", resource := "USER" } :: db.auditLogs } := by
      rw [changePassword_success_eq db now userId sessionId currentPassword
        newPassword user hu hpw]
    have hmap := findSessionForAuth_map db
      ((changePassword db now userId sessionId currentPassword newPassword).1)
      (hashSessionToken tok)
      (fun t =>
        if t.userId == userId && t.revokedAt == none && !(t.id == sessionId)
        then { t with
               revokedAt := some now
               revokedReason := some "password_changed" }
        else t)
      (fun w =>
        if w.id == userId then { w with password := hashPassword newPassword }
        else w)
      (by rw [hdb1]) (by rw [hdb1]) (by rw [hdb1])
      (fun t => by
        by_cases hc : t.userId == userId && t.revokedAt == none &&
          !(t.id == sessionId) <;> simp [hc])
      (fun t => by
        by_cases hc : t.userId == userId && t.revokedAt == none &&
          !(t.id == sessionId) <;> simp [hc])
      (fun t => by
        by_cases hc : t.userId == userId && t.revokedAt == none &&
          !(t.id == sessionId) <;> simp [hc])
      (fun w => by by_cases hc : w.id == userId <;> simp [hc])
      hf
    have hsid' : s.id = sessionId := by
      rw [hctx] at hsid
      exact hsid
    have hgs : (if s.userId == userId && s.revokedAt == none &&
        !(s.id == sessionId) then
          { s with
            revokedAt := some now
            revokedReason := some "password_changed" }
        else s) = s := by
      simp [hsid']
    unfold authenticate
    dsimp only
    rw [hmap]
    dsimp only [Option.map_some']
    rw [hgs]
    have hfv : (if u₂.id == userId then
        { u₂ with password := hashPassword newPassword } else u₂).verified =
        u₂.verified := by
      by_cases hc : u₂.id == userId <;> simp [hc]
    have hfl : (if u₂.id == userId then
        { u₂ with password := hashPassword newPassword } else u₂).isLocked =
        u₂.isLocked := by
      by_cases hc : u₂.id == userId <;> simp [hc]
    rw [if_neg (by simp [hrev])]
    rw [if_neg hexp]
    try dsimp only
    rw [if_neg (by rw [hfv, hver]; simp)]
    rw [if_neg (by rw [hfl, hlk]; simp)]
    try dsimp only
    rw [if_neg (by simp [hdel])]
    rw [hctx]
  · intro db now userId sessionId currentPassword newPassword user now₂ tok
      ctx hu hpw hok hcuid hneq
    obtain ⟨s, u₂, o₂, hf, hrev, hexp, hver, hlk, hdel, hctx⟩ :=
      authenticate_ok_inv hok
    have hdb1 : (changePassword db now userId sessionId currentPassword
        newPassword).1 =
      { db with
        users := db.users.map (fun w =>
          if w.id == userId then { w with password := hashPassword newPassword }
          else w)
        sessions := db.sessions.map (fun t =>
          if t.userId == userId && t.revokedAt == none &&
             !(t.id == sessionId) then
            { t with
              revokedAt := some now
              revokedReason := some "password_changed" }
          else t)
        auditLogs :=
          { userId := some userId, organizationId := some user.organizationId,
            action := "UPDATE", resource := "USER" } :: db.auditLogs } := by
      rw [changePassword_success_eq db now userId sessionId currentPassword
        newPassword user hu hpw]
    have hmap := findSessionForAuth_map db
      ((changePassword db now userId sessionId currentPassword newPassword).1)
      (hashSessionToken tok)
      (fun t =>
        if t.userId == userId && t.revokedAt == none && !(t.id == sessionId)
        then { t with
               revokedAt := some now
               revokedReason := some "password_changed" }
        else t)
      (fun w =>
        if w.id == userId then { w with password := hashPassword newPassword }
        else w)
      (by rw [hdb1]) (by rw [hdb1]) (by rw [hdb1])
      (fun t => by
        by_cases hc : t.userId == userId && t.revokedAt == none &&
          !(t.id == sessionId) <;> simp [hc])
      (fun t => by
        by_cases hc : t.userId == userId && t.revokedAt == none &&
          !(t.id == sessionId) <;> simp [hc])
      (fun t => by
        by_cases hc : t.userId == userId && t.revokedAt == none &&
          !(t.id == sessionId) <;> simp [hc])
      (fun w => by by_cases hc : w.id == userId <;> simp [hc])
      hf
    have hsuid : s.userId = userId := by
      rw [hctx] at hcuid
      exact hcuid
    have hsid' : s.id ≠ sessionId := by
      rw [hctx] at hneq
      exact hneq
    have hgs : (if s.userId == userId && s.revokedAt == none &&
        !(s.id == sessionId) then
          { s with
            revokedAt := some now
            revokedReason := some "password_changed" }
        else s) =
        { s with
          revokedAt := some now
          revokedReason := some "password_changed" } := by
      simp [hsuid, hrev, hsid']
    unfold authenticate
    dsimp only
    rw [hmap]
    dsimp only [Option.map_some']
    rw [hgs]
    rw [if_pos (by simp)]
    rfl

/-- Witness for C8: after the change on session 10, token A still
authenticates while token B is rejected as revoked. -/
theorem changePassword_revokes_only_siblings_witness :
    (authenticate (changePassword c8DB 500 1 10 "Secret1A" "NewSecret1").1 600
      (some "tokA")).result = .ok ⟨1, 10, 0⟩ ∧
    (authenticate (changePassword c8DB 500 1 10 "Secret1A" "NewSecret1").1 600
      (some "tokB")).result = .error .sessionRevoked :=
  ⟨changePassword_revokes_only_siblings.2.1 c8DB 500 1 10 "Secret1A"
      "NewSecret1" c2User 600 "tokA" ⟨1, 10, 0⟩ (by decide) (by decide)
      (by decide) rfl,
   changePassword_revokes_only_siblings.2.2 c8DB 500 1 10 "Secret1A"
      "NewSecret1" c2User 600 "tokB" ⟨1, 11, 0⟩ (by decide) (by decide)
      (by decide) rfl (by decide)⟩

/-- A nonempty filter makes argmax return one of its members. -/
theorem filter_argmax_some {α : Type} (f : α → Nat) (p : α → Bool)
    {l : List α} {s : α} (hmem : s ∈ l) (hps : p s = true) :
    ∃ m, (l.filter p).argmax f = some m ∧ m ∈ l.filter p := by
  have hne : l.filter p ≠ [] := by
    intro h
    have hin := List.mem_filter.mpr ⟨hmem, hps⟩
    rw [h] at hin
    exact List.not_mem_nil _ hin
  cases hx : (l.filter p).argmax f with
  | none =>
    rw [List.argmax_eq_none] at hx
    exact absurd hx hne
  | some m => exact ⟨m, rfl, List.argmax_mem (Option.mem_def.mpr hx)⟩

/-- C3 counterexample: the store holds a session for the email whose
lockUntil is strictly in the future (the password-reset one), yet
resend-code does not fail with the session-locked error — it succeeds by
rotating a token in the email-verification session and creates a new
OtpToken row, because the resend global-lock query is scoped to
EMAIL_VERIFICATION sessions only. -/
theorem resend_global_lock_counterexample :
    (c3DB.otpSessions.any (fun s => lockIsActive s.lockUntil c3Now)) = true ∧
    (resendCode c3DB c3Now "d@x.com" "654321").2 =
      .ok ⟨true, "New verification code sent",
        some (c3Now + OTP_EXPIRY_MINUTES * minuteMs), none⟩ ∧
    (resendCode c3DB c3Now "d@x.com" "654321").1.otpTokens.length =
      c3DB.otpTokens.length + 1 := by
  refine ⟨by decide, by decide, by decide⟩

/-- C3 (amended): when a session of the flow's own purpose
(EMAIL_VERIFICATION for resend-code, PASSWORD_RESET for forgot-password)
for the email holds a lockUntil strictly in the future, resend-code fails
with the session-locked error and forgot-password returns the bare generic
success, each leaving the store untouched, even if a different session of
that purpose for the email is unlocked; the global lock check runs before
any session-specific state is consulted. -/
theorem global_lock_dominance_purpose_scoped :
    (∀ db now email otpCode s,
      s ∈ db.otpSessions → s.purpose = .emailVerification →
      s.email = normalizeEmail email → lockIsActive s.lockUntil now = true →
      ∃ l, resendCode db now email otpCode =
        (db, .error (.verificationSessionLocked l))) ∧
    (∀ db now email otpCode s,
      s ∈ db.otpSessions → s.purpose = .passwordReset →
      s.email = normalizeEmail email → lockIsActive s.lockUntil now = true →
      forgotPassword db now email otpCode false = (db, forgotSuccess)) := by
  constructor
  · intro db now email otpCode s hmem hp he hl
    have hl' := hl
    unfold lockIsActive at hl'
    have hps : (fun t : OtpSessionRow =>
        t.email == normalizeEmail email &&
        t.purpose == OtpPurpose.emailVerification &&
        (match t.lockUntil with | some l => now < l | none => false)) s =
        true := by
      simp only [he, hp, hl']
      simp
    obtain ⟨lock, hargmax, hlockmem⟩ := filter_argmax_some
      (fun t => t.lockUntil.getD 0)
      (fun t : OtpSessionRow =>
        t.email == normalizeEmail email &&
        t.purpose == OtpPurpose.emailVerification &&
        (match t.lockUntil with | some l => now < l | none => false))
      hmem hps
    have hfold : findSessionsWithActiveLocks db now email = some lock := hargmax
    have hlockpred := (List.mem_filter.mp hlockmem).2
    cases hcase : lock.lockUntil with
    | none =>
      rw [hcase] at hlockpred
      simp at hlockpred
    | some l =>
      refine ⟨l, ?_⟩
      unfold resendCode
      rw [hfold]
      dsimp only
      rw [hcase]
  · intro db now email otpCode s hmem hp he hl
    cases hf : findUserForLogin db email with
    | none => exact forgotPassword_no_user db now email otpCode false hf
    | some pair =>
      have hl' := hl
      unfold lockIsActive at hl'
      have hps : (fun t : OtpSessionRow =>
          t.email == normalizeEmail email &&
          t.purpose == OtpPurpose.passwordReset &&
          (match t.lockUntil with | some l => now < l | none => false)) s =
          true := by
        simp only [he, hp, hl']
        simp
      obtain ⟨lock, hargmax, _⟩ := filter_argmax_some
        (fun t => t.lockUntil.getD 0)
        (fun t : OtpSessionRow =>
          t.email == normalizeEmail email &&
          t.purpose == OtpPurpose.passwordReset &&
          (match t.lockUntil with | some l => now < l | none => false))
        hmem hps
      have hfold : findPasswordResetSessionsWithActiveLocks db now email =
        some lock := hargmax
      exact forgotPassword_locked db now email otpCode false
        (by rw [hf]; rfl) (by rw [hfold]; rfl)

/-- Witness for the amended C3 on the counterexample store: the locked
password-reset session makes forgot-password return the bare generic
success with the store unchanged, and a store whose locked session has the
EMAIL_VERIFICATION purpose makes resend-code fail locked. -/
theorem global_lock_dominance_purpose_scoped_witness :
    forgotPassword c3DB c3Now "d@x.com" "654321" false = (c3DB, forgotSuccess) :=
  global_lock_dominance_purpose_scoped.2 c3DB c3Now "d@x.com" "654321"
    c3LockedReset (by decide) rfl (by decide) (by decide)

/-- C4: with the correct code against an active, unexpired, unlocked
password-reset session holding a valid newest token, one transaction marks
the token consumed and the session inactive, replaces the password hash,
zeroes loginAttempts, unlocks and verifies the user (stamping verifiedAt
when previously unverified), revokes every unrevoked session of the user
with reason password_changed, and appends a SUCCESS OtpAttempt row plus an
audit log row. -/
theorem resetPassword_success_transaction (db : DB) (now : Nat)
    (email otpCode newPassword : String) (user : UserRow)
    (org : OrganizationRow) (session : OtpSessionRow) (token : OtpTokenRow)
    (rest : List OtpTokenRow)
    (hu : findUserForLogin db email = some (user, org))
    (hs : findActivePasswordResetSession db email = some session)
    (hexp : ¬(session.expiresAt < now))
    (hlock : lockIsActive session.lockUntil now = false)
    (htok : findUnconsumedOtpTokens db session.id = token :: rest)
    (htexp : ¬(token.expiresAt < now))
    (hch : (token.codeHash == "") = false)
    (hok : verifyOTP otpCode token.codeHash = true) :
    resetPassword db now email otpCode newPassword =
      ({ db with
         users := db.users.map (fun w =>
           if w.id == user.id then
             { w with
               password := hashPassword newPassword
               loginAttempts := 0
               isLocked := false
               verified := true
               verifiedAt := if !user.verified then some now else w.verifiedAt }
           else w)
         sessions := db.sessions.map (fun t =>
           if t.userId == user.id && t.revokedAt == none then
             { t with
               revokedAt := some now
               revokedReason := some "password_changed" }
           else t)
         otpSessions := db.otpSessions.map (fun s =>
           if s.id == session.id then { s with active := false } else s)
         otpTokens := db.otpTokens.map (fun t =>
           if t.id == token.id then { t with consumedAt := some now } else t)
         otpAttempts :=
           { sessionId := session.id, tokenId := some token.id,
             userId := some user.id, email := normalizeEmail email,
             purpose := .passwordReset, status := .success,
             reason := none } :: db.otpAttempts
         auditLogs :=
           { userId := some user.id,
             organizationId := some user.organizationId,
             action := "UPDATE", resource := "USER" } :: db.auditLogs },
       .ok ⟨true, "Password reset successfully"⟩) ∧
    (∀ t ∈ db.sessions, t.userId = user.id → t.revokedAt = none →
      { t with
        revokedAt := some now
        revokedReason := some "password_changed" } ∈
        (resetPassword db now email otpCode newPassword).1.sessions) := by
  have hmain : resetPassword db now email otpCode newPassword =
      ({ db with
         users := db.users.map (fun w =>
           if w.id == user.id then
             { w with
               password := hashPassword newPassword
               loginAttempts := 0
               isLocked := false
               verified := true
               verifiedAt := if !user.verified then some now else w.verifiedAt }
           else w)
         sessions := db.sessions.map (fun t =>
           if t.userId == user.id && t.revokedAt == none then
             { t with
               revokedAt := some now
               revokedReason := some "password_changed" }
           else t)
         otpSessions := db.otpSessions.map (fun s =>
           if s.id == session.id then { s with active := false } else s)
         otpTokens := db.otpTokens.map (fun t =>
           if t.id == token.id then { t with consumedAt := some now } else t)
         otpAttempts :=
           { sessionId := session.id, tokenId := some token.id,
             userId := some user.id, email := normalizeEmail email,
             purpose := .passwordReset, status := .success,
             reason := none } :: db.otpAttempts
         auditLogs :=
           { userId := some user.id,
             organizationId := some user.organizationId,
             action := "UPDATE", resource := "USER" } :: db.auditLogs },
       .ok ⟨true, "Password reset successfully"⟩) := by
    unfold resetPassword
    rw [hu]
    dsimp only
    rw [hs]
    dsimp only
    rw [if_neg hexp]
    rw [if_neg (by simp [hlock])]
    rw [htok]
    dsimp only
    rw [if_neg htexp]
    rw [if_neg (by simp [hch])]
    rw [if_neg (by simp [hok])]
    rfl
  refine ⟨hmain, ?_⟩
  intro t ht htu htr
  have hsess : (resetPassword db now email otpCode newPassword).1.sessions =
      db.sessions.map (fun t =>
        if t.userId == user.id && t.revokedAt == none then
          { t with
            revokedAt := some now
            revokedReason := some "password_changed" }
        else t) := by
    rw [hmain]
  rw [hsess]
  refine List.mem_map.mpr ⟨t, ht, ?_⟩
  rw [if_pos (by simp [htu, htr])]

/-- Witness for C4: the correct code resets the sample unverified, locked
user and revokes the live session. -/
theorem resetPassword_success_transaction_witness :
    (resetPassword c4DB 1000 "e@x.com" "333333" "NewSecret1").2 =
      .ok ⟨true, "Password reset successfully"⟩ ∧
    { c4AuthSession with
      revokedAt := some 1000
      revokedReason := some "password_changed" } ∈
      (resetPassword c4DB 1000 "e@x.com" "333333" "NewSecret1").1.sessions := by
  have h := resetPassword_success_transaction c4DB 1000 "e@x.com" "333333"
    "NewSecret1" c4User c1Org c4Session c4Token [] (by decide) (by decide)
    (by decide) (by decide) (by decide) (by decide) (by decide) (by decide)
  constructor
  · rw [h.1]
  · exact h.2 c4AuthSession (by decide) rfl rfl

/-- SessInv is preserved by otpSessions updates that keep email, purpose and
id of every row and never activate an inactive row, when users keep their
emails and the id allocator does not shrink. -/
theorem SessInv.map_monotone {db db₂ : DB} (f : OtpSessionRow → OtpSessionRow)
    (hf : ∀ s, (f s).email = s.email ∧ (f s).purpose = s.purpose ∧
      (f s).id = s.id ∧ ((f s).active = true → s.active = true))
    (hsess : db₂.otpSessions = db.otpSessions.map f)
    (husers : ∀ u ∈ db.users, ∃ u₂ ∈ db₂.users, u₂.email = u.email)
    (hnext : db.nextId ≤ db₂.nextId)
    (hinv : SessInv db) : SessInv db₂ := by
  constructor
  · intro s' hs'
    rw [hsess] at hs'
    obtain ⟨s, hs, rfl⟩ := List.mem_map.mp hs'
    rw [(hf s).1]
    exact hinv.norm s hs
  · intro s' hs'
    rw [hsess] at hs'
    obtain ⟨s, hs, rfl⟩ := List.mem_map.mp hs'
    obtain ⟨u, hu, he⟩ := hinv.userEx s hs
    obtain ⟨u₂, hu₂, he₂⟩ := husers u hu
    exact ⟨u₂, hu₂, by rw [he₂, he, (hf s).1]⟩
  · intro s' hs' hact
    rw [hsess] at hs' ⊢
    obtain ⟨s, hs, rfl⟩ := List.mem_map.mp hs'
    have hsact : s.active = true := (hf s).2.2.2 hact
    have hfind := hinv.activeFirst s hs hsact
    rw [find?_map_congr f (keyPred (f s).email (f s).purpose)
      (keyPred s.email s.purpose)
      (fun a => by
        unfold keyPred
        rw [(hf a).1, (hf a).2.1, (hf s).1, (hf s).2.1])
      db.otpSessions]
    rw [hfind]
    rfl
  · rw [hsess, List.map_map]
    have heq : ((fun s : OtpSessionRow => s.id) ∘ f) =
        fun s : OtpSessionRow => s.id := funext fun s => (hf s).2.2.1
    rw [heq]
    exact hinv.idsNodup
  · intro s' hs'
    rw [hsess] at hs'
    obtain ⟨s, hs, rfl⟩ := List.mem_map.mp hs'
    rw [(hf s).2.2.1]
    exact lt_of_lt_of_le (hinv.idsFresh s hs) hnext

/-- SessInv is preserved by consing a fresh active session on top of an
update as in map_monotone, when the new row is normalized, backed by a
user, carries a fresh id, and no survivor of its key stays active. -/
theorem SessInv.cons_fresh {db db₂ : DB} (f : OtpSessionRow → OtpSessionRow)
    (newS : OtpSessionRow)
    (hf : ∀ s, (f s).email = s.email ∧ (f s).purpose = s.purpose ∧
      (f s).id = s.id ∧ ((f s).active = true → s.active = true))
    (hsess : db₂.otpSessions = newS :: db.otpSessions.map f)
    (hnorm : normalizeEmail newS.email = newS.email)
    (huser : ∃ u ∈ db₂.users, u.email = newS.email)
    (husers : ∀ u ∈ db.users, ∃ u₂ ∈ db₂.users, u₂.email = u.email)
    (hid : db.nextId ≤ newS.id)
    (hfresh : newS.id < db₂.nextId)
    (hnext : db.nextId ≤ db₂.nextId)
    (hnoact : ∀ s ∈ db.otpSessions, (f s).active = true →
      keyPred newS.email newS.purpose (f s) = false)
    (hinv : SessInv db) : SessInv db₂ := by
  constructor
  · intro s' hs'
    rw [hsess] at hs'
    rcases List.mem_cons.mp hs' with rfl | hmem
    · exact hnorm
    · obtain ⟨s, hs, rfl⟩ := List.mem_map.mp hmem
      rw [(hf s).1]
      exact hinv.norm s hs
  · intro s' hs'
    rw [hsess] at hs'
    rcases List.mem_cons.mp hs' with rfl | hmem
    · exact huser
    · obtain ⟨s, hs, rfl⟩ := List.mem_map.mp hmem
      obtain ⟨u, hu, he⟩ := hinv.userEx s hs
      obtain ⟨u₂, hu₂, he₂⟩ := husers u hu
      exact ⟨u₂, hu₂, by rw [he₂, he, (hf s).1]⟩
  · intro s' hs' hact
    rw [hsess] at hs' ⊢
    rcases List.mem_cons.mp hs' with rfl | hmem
    · have hml : keyPred s'.email s'.purpose s' = true := by
        unfold keyPred
        simp
      simp only [List.find?_cons, hml]
    · obtain ⟨s, hs, rfl⟩ := List.mem_map.mp hmem
      have hsact : s.active = true := (hf s).2.2.2 hact
      have hfind := hinv.activeFirst s hs hsact
      have hhead : keyPred (f s).email (f s).purpose newS = false := by
        cases hx : keyPred (f s).email (f s).purpose newS with
        | false => rfl
        | true =>
          exfalso
          unfold keyPred at hx
          simp only [Bool.and_eq_true, beq_iff_eq] at hx
          have hno := hnoact s hs hact
          unfold keyPred at hno
          have h1 : ((f s).email == newS.email) = true := by
            rw [hx.1]
            simp
          have h2 : ((f s).purpose == newS.purpose) = true := by
            rw [hx.2]
            simp
          rw [h1, h2] at hno
          exact absurd hno (by simp)
      simp only [List.find?_cons, hhead]
      rw [find?_map_congr f (keyPred (f s).email (f s).purpose)
        (keyPred s.email s.purpose)
        (fun a => by
          unfold keyPred
          rw [(hf a).1, (hf a).2.1, (hf s).1, (hf s).2.1])
        db.otpSessions]
      rw [hfind]
      rfl
  · rw [hsess]
    simp only [List.map_cons, List.map_map]
    have heq : ((fun s : OtpSessionRow => s.id) ∘ f) =
        fun s : OtpSessionRow => s.id := funext fun s => (hf s).2.2.1
    rw [heq]
    refine List.nodup_cons.mpr ⟨?_, hinv.idsNodup⟩
    intro hmem
    obtain ⟨s, hs, hseq⟩ := List.mem_map.mp hmem
    have := hinv.idsFresh s hs
    omega
  · intro s' hs'
    rw [hsess] at hs'
    rcases List.mem_cons.mp hs' with rfl | hmem
    · exact hfresh
    · obtain ⟨s, hs, rfl⟩ := List.mem_map.mp hmem
      rw [(hf s).2.2.1]
      exact lt_of_lt_of_le (hinv.idsFresh s hs) hnext

/-- The otpSessions table written by incrementOtpSessionAttempts is a
key-preserving, activity-monotone map of the old one. -/
theorem incrementOtpSessionAttempts_sessions (db : DB) (now sessionId : Nat)
    (db' : DB) (upd : OtpSessionRow)
    (h : incrementOtpSessionAttempts db now sessionId = some (db', upd)) :
    ∃ f : OtpSessionRow → OtpSessionRow,
      (∀ s, (f s).email = s.email ∧ (f s).purpose = s.purpose ∧
        (f s).id = s.id ∧ ((f s).active = true → s.active = true)) ∧
      db'.otpSessions = db.otpSessions.map f := by
  unfold incrementOtpSessionAttempts at h
  cases hf : db.otpSessions.find? (fun s => s.id == sessionId) with
  | none =>
    rw [hf] at h
    exact Option.noConfusion h
  | some cur =>
    rw [hf] at h
    simp only [Option.some.injEq, Prod.mk.injEq] at h
    obtain ⟨hdb, _⟩ := h
    subst hdb
    refine ⟨_, fun s => ?_, rfl⟩
    by_cases hc : s.id == sessionId <;>
      simp [hc]

/-- verify-email preserves the session invariant. -/
theorem verify_preserves (db : DB) (now : Nat) (email otpCode : String)
    (hinv : SessInv db) : SessInv (verifyEmail db now email otpCode).1 := by
  unfold verifyEmail
  split
  · exact hinv
  · cases hs : findActiveOtpSession db email with
    | none => exact hinv
    | some session =>
      dsimp only
      split
      · exact hinv
      · split
        · exact hinv
        · cases htk : findUnconsumedOtpTokens db session.id with
          | nil => exact hinv
          | cons token rest =>
            dsimp only
            split
            · exact hinv
            · split
              · exact hinv
              · split
                · cases hi : incrementOtpSessionAttempts db now session.id with
                  | none => exact hinv
                  | some pr =>
                    obtain ⟨db1, upd⟩ := pr
                    obtain ⟨f, hfp, hmap⟩ :=
                      incrementOtpSessionAttempts_sessions db now session.id
                        db1 upd hi
                    obtain ⟨hu1, _, _, _, _, _, hn1⟩ :=
                      incrementOtpSessionAttempts_frame db now session.id db1
                        upd hi
                    refine SessInv.map_monotone f hfp ?_ ?_ ?_ hinv
                    · exact hmap
                    · intro u hu
                      refine ⟨u, ?_, rfl⟩
                      rw [show (createOtpAttempt db1 session.id (some token.id)
                        session.userId email .failure
                        (some "INVALID_CODE")).users = db1.users from rfl, hu1]
                      exact hu
                    · rw [show (createOtpAttempt db1 session.id (some token.id)
                        session.userId email .failure
                        (some "INVALID_CODE")).nextId = db1.nextId from rfl,
                        hn1]
                · cases session.userId with
                  | none => exact hinv
                  | some uid =>
                    dsimp only
                    cases findUserById db uid with
                    | none => exact hinv
                    | some uRow =>
                      dsimp only
                      refine @SessInv.map_monotone db _
                        (fun s => if s.id == session.id then
                          { s with active := false } else s)
                        (fun s => by
                          by_cases hc : s.id == session.id <;> simp [hc])
                        rfl ?_ ?_ hinv
                      · intro u hu
                        refine ⟨(if u.id == uid then
                          { u with verified := true, verifiedAt := some now }
                          else u), ?_, ?_⟩
                        · exact List.mem_map.mpr ⟨u, hu, rfl⟩
                        · by_cases hc : u.id == uid <;> simp [hc]
                      · rfl

/-- Token rotation preserves the session invariant. -/
theorem rotate_preserves (db : DB) (now : Nat) (session : OtpSessionRow)
    (email otpCode : String) (hinv : SessInv db) :
    SessInv (rotateTokenInSession db now session email otpCode).1 := by
  unfold rotateTokenInSession
  dsimp only
  refine @SessInv.map_monotone db _
    (fun s => if s.id == session.id then
      { s with
        resendCount := session.resendCount + 1
        lastSentAt := some now }
      else s)
    (fun s => by by_cases hc : s.id == session.id <;> simp [hc])
    rfl ?_ ?_ hinv
  · intro u hu
    exact ⟨u, hu, rfl⟩
  · show db.nextId ≤ db.nextId + 1
    omega

/-- register preserves the session invariant. -/
theorem register_preserves (db : DB) (now : Nat)
    (email password organizationName otpCode : String)
    (hnorm : normalizeEmail email = email) (hinv : SessInv db) :
    SessInv (register db now email password organizationName otpCode).1 := by
  unfold register
  cases hg : getUserByEmail db email with
  | some existingUser =>
    dsimp only
    split <;> exact hinv
  | none =>
    dsimp only
    refine @SessInv.cons_fresh db _ (fun s => s)
      { id := db.nextId + 2, userId := some (db.nextId + 1),
        organizationId := some db.nextId, email := email,
        purpose := .emailVerification, active := true,
        expiresAt := now + SESSION_EXPIRY_HOURS * hourMs,
        attemptCount := 0, maxAttempts := OTP_MAX_ATTEMPTS,
        lockUntil := none, resendCount := 0,
        lastSentAt := some now, lastAttemptAt := none }
      (fun s => ⟨rfl, rfl, rfl, fun h => h⟩)
      ?_ hnorm ?_ ?_ ?_ ?_ ?_ ?_ hinv
    · show _ = _ :: db.otpSessions.map (fun s => s)
      rw [List.map_id']
      rfl
    · refine ⟨{ id := db.nextId + 1, email := normalizeEmail email,
                password := hashPassword password, verified := false,
                verifiedAt := none, isLocked := false, loginAttempts := 0,
                lastLoginAt := none, organizationId := db.nextId }, ?_, ?_⟩
      · show _ ∈ _ :: db.users
        exact List.mem_cons_self _ _
      · exact hnorm
    · intro u hu
      refine ⟨u, ?_, rfl⟩
      show u ∈ _ :: db.users
      exact List.mem_cons_of_mem _ hu
    · show db.nextId ≤ db.nextId + 2
      omega
    · show db.nextId + 2 < db.nextId + 4
      omega
    · show db.nextId ≤ db.nextId + 4
      omega
    · intro s hsm hact
      dsimp only at hact ⊢
      cases hk : keyPred email OtpPurpose.emailVerification s with
      | false => rfl
      | true =>
        exfalso
        unfold keyPred at hk
        simp only [Bool.and_eq_true, beq_iff_eq] at hk
        obtain ⟨u, hu, he⟩ := hinv.userEx s hsm
        unfold getUserByEmail at hg
        have hne := List.find?_eq_none.mp hg u hu
        apply hne
        rw [he, hk.1, hnorm]
        simp

/-- resend-code preserves the session invariant. -/
theorem resend_preserves (db : DB) (now : Nat) (email otpCode : String)
    (hnorm : normalizeEmail email = email) (hinv : SessInv db) :
    SessInv (resendCode db now email otpCode).1 := by
  unfold resendCode
  cases hl : findSessionsWithActiveLocks db now email with
  | some lock =>
    dsimp only
    cases lock.lockUntil <;> exact hinv
  | none =>
    dsimp only
    split
    · exact hinv
    · cases hs : findAnyOtpSession db email with
      | none => exact hinv
      | some session =>
        dsimp only
        split
        · unfold createReplacementSession
          cases huid : session.userId with
          | none => exact hinv
          | some uid =>
            cases hoid : session.organizationId with
            | none => exact hinv
            | some oid =>
              dsimp only
              have hsl : db.otpSessions.find? (fun s =>
                  s.email == normalizeEmail email &&
                  s.purpose == OtpPurpose.emailVerification) = some session := hs
              have hsmem : session ∈ db.otpSessions :=
                List.mem_of_find?_eq_some hsl
              have hspred := List.find?_some hsl
              simp only [Bool.and_eq_true, beq_iff_eq] at hspred
              have hsemail : session.email = email := by
                rw [hspred.1, hnorm]
              refine @SessInv.cons_fresh db _
                (fun s => if s.id == session.id then
                  { s with active := false } else s)
                { id := db.nextId, userId := some uid,
                  organizationId := some oid, email := email,
                  purpose := .emailVerification, active := true,
                  expiresAt := now + SESSION_EXPIRY_HOURS * hourMs,
                  attemptCount := 0, maxAttempts := OTP_MAX_ATTEMPTS,
                  lockUntil := none, resendCount := 0,
                  lastSentAt := some now, lastAttemptAt := none }
                (fun s => by by_cases hc : s.id == session.id <;> simp [hc])
                rfl hnorm ?_ ?_ ?_ ?_ ?_ ?_ hinv
              · obtain ⟨u, hu, he⟩ := hinv.userEx session hsmem
                exact ⟨u, hu, by rw [he, hsemail]⟩
              · intro u hu
                exact ⟨u, hu, rfl⟩
              · exact Nat.le_refl _
              · show db.nextId < db.nextId + 1 + 1
                omega
              · show db.nextId ≤ db.nextId + 1 + 1
                omega
              · intro s hsm hact
                dsimp only at hact ⊢
                by_cases hc : s.id = session.id
                · simp [hc] at hact
                · rw [if_neg (by simp [hc])] at hact ⊢
                  cases hk : keyPred email OtpPurpose.emailVerification s with
                  | false => rfl
                  | true =>
                  exfalso
                  have hk' := hk
                  unfold keyPred at hk
                  simp only [Bool.and_eq_true, beq_iff_eq] at hk
                  have hfirst := hinv.activeFirst s hsm hact
                  have hpredeq : (fun t : OtpSessionRow =>
                      t.email == normalizeEmail email &&
                      t.purpose == OtpPurpose.emailVerification) =
                      keyPred email OtpPurpose.emailVerification := by
                    funext t
                    rw [hnorm]
                    rfl
                  have hs' := hs
                  unfold findAnyOtpSession at hs'
                  rw [hpredeq] at hs'
                  rw [hk.1, hk.2] at hfirst
                  rw [hfirst] at hs'
                  exact hc (congrArg OtpSessionRow.id (Option.some.inj hs'))
        · split
          · exact hinv
          · split
            · exact hinv
            · cases session.lastSentAt with
              | none => exact rotate_preserves db now session email otpCode hinv
              | some lastSent =>
                dsimp only
                split
                · exact hinv
                · exact rotate_preserves db now session email otpCode hinv

/-- The empty store satisfies the session invariant vacuously. -/
theorem SessInv.empty : SessInv DB.empty := by
  constructor <;> simp [DB.empty]

/-- Any single flow operation preserves the session invariant, provided the
submitted email is already normalized (the DTO layer lowercases and trims
every email before the service runs). -/
theorem runOp_preserves (db : DB) (op : Nat × FlowOp)
    (hnorm : normalizeEmail op.2.email = op.2.email) (hinv : SessInv db) :
    SessInv (runOp db op) := by
  unfold runOp
  cases hop : op.2 with
  | registerOp e p o c =>
    rw [hop] at hnorm
    exact register_preserves db op.1 e p o c hnorm hinv
  | resendOp e c =>
    rw [hop] at hnorm
    exact resend_preserves db op.1 e c hnorm hinv
  | verifyOp e c =>
    exact verify_preserves db op.1 e c hinv

/-- Any sequence of flow operations preserves the session invariant. -/
theorem runOps_preserves (db : DB) (ops : List (Nat × FlowOp))
    (hnorm : ∀ op ∈ ops, normalizeEmail op.2.email = op.2.email)
    (hinv : SessInv db) : SessInv (runOps db ops) := by
  induction ops generalizing db with
  | nil => exact hinv
  | cons op rest ih =>
    exact ih (runOp db op) (fun o ho => hnorm o (List.mem_cons_of_mem _ ho))
      (runOp_preserves db op (hnorm op (List.mem_cons_self _ _)) hinv)

/-- A duplicate-free list all of whose members coincide has at most one
element. -/
theorem length_le_one_of_nodup_forall_eq {α : Type} {l : List α}
    (hnd : l.Nodup) (heq : ∀ a ∈ l, ∀ b ∈ l, a = b) : l.length ≤ 1 := by
  match l with
  | [] => simp
  | [a] => simp
  | a :: b :: t =>
    exfalso
    have hab : a = b :=
      heq a (List.mem_cons_self _ _) b
        (List.mem_cons_of_mem _ (List.mem_cons_self _ _))
    rcases List.nodup_cons.mp hnd with ⟨hna, _⟩
    exact hna (hab ▸ List.mem_cons_self b t)

/-- The session invariant forces at most one active session per key: two
active rows of the same key are both the find?-first row of that key, and
the id-uniqueness rules out a duplicated row. -/
theorem SessInv.atMostOne {db : DB} (hinv : SessInv db) :
    AtMostOneActive db := by
  intro e p
  apply length_le_one_of_nodup_forall_eq
  · exact (List.Nodup.of_map _ hinv.idsNodup).filter _
  · intro a ha b hb
    rw [List.mem_filter] at ha hb
    obtain ⟨ham, haf⟩ := ha
    obtain ⟨hbm, hbf⟩ := hb
    simp only [Bool.and_eq_true] at haf hbf
    have hae : a.email = e ∧ a.purpose = p := by
      have hk := haf.2
      unfold keyPred at hk
      simpa [Bool.and_eq_true, beq_iff_eq] using hk
    have hbe : b.email = e ∧ b.purpose = p := by
      have hk := hbf.2
      unfold keyPred at hk
      simpa [Bool.and_eq_true, beq_iff_eq] using hk
    have h1 := hinv.activeFirst a ham haf.1
    have h2 := hinv.activeFirst b hbm hbf.1
    rw [hae.1, hae.2] at h1
    rw [hbe.1, hbe.2] at h2
    rw [h1] at h2
    exact Option.some.inj h2

/-- C5: after any sequence of register, resend-code, and verify-email calls
run sequentially from the empty store (with DTO-normalized emails), every
(email, purpose) key has at most one OtpSession row with active = true:
register creates a session only when no user exists for the email,
replacement of an expired session deactivates the old row in the same
transaction that creates the new one, and successful verification
deactivates the session. -/
theorem at_most_one_active_otp_session (ops : List (Nat × FlowOp))
    (hnorm : ∀ op ∈ ops, normalizeEmail op.2.email = op.2.email) :
    AtMostOneActive (runOps DB.empty ops) :=
  (runOps_preserves DB.empty ops hnorm SessInv.empty).atMostOne

/-- Concrete instantiation of C5 on a register-resend-verify run. -/
theorem at_most_one_active_otp_session_witness :
    (∀ op ∈ c5Ops, normalizeEmail op.2.email = op.2.email) ∧
    AtMostOneActive (runOps DB.empty c5Ops) :=
  ⟨by decide, at_most_one_active_otp_session c5Ops (by decide)⟩

end Cotizate
